import Mathlib

/-!
Verification of the COTCAgent symptom-canonicalization and disease-matching
engine against its design specification.

The development shallowly embeds two Python modules:

* `DS/improved_symptom_normalizer.py` — the symptom canonicalizer
  (`_normalize_symptom_name`), the MD5-based id generator
  (`_generate_symptom_id`, modelled by a full MD5 implementation over the
  UTF-8 bytes of the name, as `hashlib.md5` computes it), the knowledge-base
  canonicalization (`normalize_disease_data`) and the reverse index
  (`create_reverse_mapping`).

* `cotc_agent_final.py` — the dialogue agent: `DiseaseMatcher`
  (`build_symptom_mapping`, `get_disease_symptoms`, `find_potential_diseases`,
  `load_disease_database`) and `COTCAgent` (`process_user_query`,
  `extract_and_confirm_symptoms`, `generate_verification_questions`,
  `generate_targeted_questions`, `generate_match_visualization`,
  `process_user_response`, `analyze_user_response`, `generate_final_diagnosis`,
  `generate_lifestyle_advice`).

Modelling conventions:

* Python strings are `String` (sequences of Unicode code points); the
  substring operator `in` is `occursInStr`.
* Python's float `confirmed / total * 100` is modelled exactly as the
  rational `confirmed * 100 / total`, represented by an unreduced fraction
  `Frac` (numerator/denominator as naturals) so that every computation is
  kernel-executable; `Frac.toQ` gives its value in `ℚ` and order/threshold
  tests are cross-multiplication, which agrees with the rational order
  whenever denominators are positive (all fractions the code builds have
  positive denominators).
* Python dicts that are only read pointwise are modelled as functions or
  association lists (`dictSet`/`dictGet` mirror item assignment and lookup);
  dict iteration order (insertion order) is preserved by using ordered lists.
* `list.sort(key=..., reverse=True)` is a stable descending sort; the
  structural insertion sort `stableSortBy` below computes the same
  (unique) stable ordering.
* The character class `[^\w一-鿿]` stripped by `re.sub` is modelled
  by `isWordChar` covering ASCII word characters and the CJK ideograph range
  `一`–`鿿` — the alphabet of the static table and of the corpus.
* Exception handling in `load_disease_database` is modelled by passing the
  result of the `open`+`json.load` step as an `Except`.
-/

/-! ## Generic string helpers -/

/-- Prefix test on character lists. -/
def listStartsWith : List Char → List Char → Bool
  | [], _ => true
  | _ :: _, [] => false
  | a :: as, b :: bs => a == b && listStartsWith as bs

/-- Substring containment on character lists: `occursIn n h` is true iff the
character sequence `n` occurs contiguously inside `h` (Python's `n in h`;
in particular the empty sequence occurs in everything). -/
def occursIn (needle : List Char) : List Char → Bool
  | [] => listStartsWith needle []
  | b :: bs => listStartsWith needle (b :: bs) || occursIn needle bs

/-- Python's substring operator `needle in hay` on strings. -/
def occursInStr (needle hay : String) : Bool := occursIn needle.data hay.data

/-! ## Semantic group table

Transcribed from `ImprovedSymptomNormalizer._create_detailed_semantic_groups`,
in declaration order (Python dicts preserve insertion order; the literal has
no duplicate keys, so the dict holds exactly these pairs in this order). -/

def semanticGroups : List (String × List String) := [
  ("头痛", ["头痛", "头疼", "头部疼痛", "头胀痛", "头部胀痛"]),
  ("偏头痛", ["偏头痛", "偏侧头痛", "单侧头痛", "搏动性头痛"]),
  ("颅内压增高性头痛", ["颅内压增高", "颅压增高", "脑压增高头痛"]),
  ("紧张性头痛", ["紧张性头痛", "紧张型头痛", "压迫性头痛"]),
  ("面部疼痛", ["面部疼痛", "面痛", "脸痛", "面部不适"]),
  ("牙痛", ["牙痛", "牙疼", "牙齿疼痛", "牙齿痛"]),
  ("下颌痛", ["下颌疼痛", "下颌痛", "颞下颌关节痛"]),
  ("颈痛", ["颈痛", "颈部疼痛", "脖子痛", "颈椎痛", "颈肩痛"]),
  ("咽痛", ["咽痛", "咽喉痛", "喉咙痛", "吞咽疼痛", "咽部疼痛", "喉部疼痛"]),
  ("胸痛", ["胸痛", "胸部疼痛", "前胸痛"]),
  ("心前区疼痛", ["心前区疼痛", "心前区痛", "心脏区疼痛", "心口痛"]),
  ("胸闷痛", ["胸闷痛", "胸部闷痛", "胸部压迫性疼痛"]),
  ("肋间神经痛", ["肋间神经痛", "肋间痛", "肋骨痛"]),
  ("背痛", ["背痛", "背部疼痛", "后背痛", "脊背痛"]),
  ("上腹痛", ["上腹痛", "上腹部疼痛", "上腹疼痛", "胃区疼痛", "胃痛", "胃部疼痛"]),
  ("下腹痛", ["下腹痛", "下腹部疼痛", "下腹疼痛", "小腹痛", "小腹疼痛"]),
  ("腹痛", ["腹痛", "腹部疼痛", "肚子痛", "肚痛"]),
  ("右上腹痛", ["右上腹痛", "右上腹部疼痛", "肝区疼痛"]),
  ("左上腹痛", ["左上腹痛", "左上腹部疼痛", "脾区疼痛"]),
  ("脐周痛", ["脐周痛", "脐周疼痛", "肚脐周围痛"]),
  ("腹绞痛", ["腹绞痛", "绞痛", "痉挛性腹痛"]),
  ("腰痛", ["腰痛", "腰部疼痛", "腰酸", "腰酸痛"]),
  ("腰背痛", ["腰背痛", "腰背部疼痛", "腰脊痛"]),
  ("肾区疼痛", ["肾区疼痛", "肾区痛", "腰肾区痛"]),
  ("关节痛", ["关节疼痛", "关节痛", "关节酸痛", "关节胀痛"]),
  ("肌肉痛", ["肌肉疼痛", "肌肉痛", "肌肉酸痛", "肌痛", "肌肉胀痛"]),
  ("骨痛", ["骨痛", "骨疼", "骨骼疼痛", "骨头痛"]),
  ("四肢痛", ["四肢痛", "四肢疼痛", "手脚痛"]),
  ("手痛", ["手痛", "手部疼痛", "手疼"]),
  ("腕痛", ["腕痛", "手腕痛", "腕关节痛"]),
  ("指痛", ["指痛", "手指痛", "手指疼痛"]),
  ("腿痛", ["腿痛", "腿部疼痛", "下肢痛"]),
  ("膝痛", ["膝痛", "膝盖痛", "膝关节痛", "膝部疼痛"]),
  ("踝痛", ["踝痛", "脚踝痛", "踝关节痛"]),
  ("足痛", ["足痛", "脚痛", "足部疼痛"]),
  ("盆腔痛", ["盆腔痛", "盆腔疼痛", "盆腔不适"]),
  ("会阴痛", ["会阴痛", "会阴疼痛", "会阴部疼痛"]),
  ("耳痛", ["耳痛", "耳部疼痛", "耳朵痛", "耳内疼痛"]),
  ("眼痛", ["眼痛", "眼部疼痛", "眼睛疼痛", "眼球痛"]),
  ("鼻痛", ["鼻痛", "鼻部疼痛", "鼻子痛"]),
  ("尿痛", ["尿痛", "排尿疼痛", "小便疼痛", "尿道疼痛", "排尿时疼痛", "尿道灼痛"]),
  ("睾丸痛", ["睾丸痛", "睾丸疼痛", "阴囊痛"]),
  ("刺痛", ["刺痛", "针刺样疼痛", "锐痛"]),
  ("胀痛", ["胀痛", "胀疼", "胀满痛"]),
  ("隐痛", ["隐痛", "隐隐作痛", "钝痛"]),
  ("绞痛", ["绞痛", "痉挛性疼痛", "绞扭样疼痛"]),
  ("撕裂痛", ["撕裂痛", "撕裂样疼痛", "撕扯痛"]),
  ("烧灼痛", ["烧灼痛", "灼痛", "烧灼感"]),
  ("搏动性疼痛", ["搏动性疼痛", "跳痛", "搏动痛"]),
  ("剧痛", ["剧痛", "剧烈疼痛", "剧疼", "严重疼痛"]),
  ("发热", ["发热", "发烧", "体温升高"]),
  ("高热", ["高热", "高烧", "高度发热"]),
  ("低热", ["低热", "低烧", "微热", "轻度发热"]),
  ("中等热度", ["中等热度", "中度发热", "中等发热"]),
  ("持续发热", ["持续发热", "持续发烧", "连续发热"]),
  ("间歇性发热", ["间歇性发热", "间歇发热", "阵发性发热"]),
  ("寒战", ["寒战", "畏寒", "怕冷", "恶寒", "打寒战"]),
  ("咳嗽", ["咳嗽", "咳"]),
  ("干咳", ["干咳", "无痰咳嗽", "刺激性咳嗽"]),
  ("湿咳", ["湿咳", "有痰咳嗽"]),
  ("慢性咳嗽", ["慢性咳嗽", "持续咳嗽", "长期咳嗽"]),
  ("咳痰", ["咳痰", "咯痰", "痰多", "有痰", "痰液增多"]),
  ("脓痰", ["脓痰", "脓性痰", "黄痰"]),
  ("血痰", ["血痰", "痰中带血"]),
  ("咯血", ["咯血", "咳血", "吐血"]),
  ("呼吸困难", ["呼吸困难", "气短", "气促", "呼吸急促"]),
  ("喘息", ["喘息", "喘", "气喘", "哮喘"]),
  ("胸闷", ["胸闷", "胸部闷胀", "胸部压迫感", "憋气"]),
  ("恶心", ["恶心", "想吐", "恶心感", "反胃"]),
  ("呕吐", ["呕吐", "吐", "呕", "呕出"]),
  ("干呕", ["干呕", "干吐", "空呕"]),
  ("腹泻", ["腹泻", "拉肚子", "大便次数增多", "稀便"]),
  ("水样便", ["水样便", "水泻", "水样腹泻"]),
  ("便秘", ["便秘", "大便干燥", "排便困难", "大便秘结"]),
  ("腹胀", ["腹胀", "腹部胀满", "肚子胀", "胃胀", "腹部胀气"]),
  ("食欲不振", ["食欲不振", "食欲减退", "不想吃饭", "厌食", "食欲差"]),
  ("便血", ["便血", "大便带血", "血便"]),
  ("黑便", ["黑便", "柏油样便", "黑色大便"]),
  ("里急后重", ["里急后重", "便意频繁", "排便不尽感"]),
  ("头晕", ["头晕", "头昏", "晕"]),
  ("眩晕", ["眩晕", "晕眩", "眩晕感", "旋转感"]),
  ("失眠", ["失眠", "睡眠障碍", "入睡困难", "睡眠不好", "不能入睡"]),
  ("嗜睡", ["嗜睡", "过度睡眠", "睡意浓"]),
  ("疲劳", ["疲劳", "乏力", "无力", "疲倦", "精神不振", "体力下降", "疲乏"]),
  ("意识障碍", ["意识障碍", "意识模糊", "神志不清"]),
  ("昏迷", ["昏迷", "不省人事", "失去意识"]),
  ("抽搐", ["抽搐", "痉挛", "抽筋"]),
  ("癫痫发作", ["癫痫发作", "癫痫", "抽风"]),
  ("皮疹", ["皮疹", "皮肤红疹", "红疹", "疹子", "皮肤疹", "出疹"]),
  ("瘙痒", ["瘙痒", "痒", "皮肤瘙痒", "皮痒", "发痒"]),
  ("红肿", ["红肿", "肿胀", "红胀"]),
  ("水肿", ["水肿", "浮肿", "肿胀"]),
  ("皮肤干燥", ["皮肤干燥", "皮肤粗糙", "皮肤脱屑", "脱皮", "皮肤起皮"]),
  ("皮肤发红", ["皮肤发红", "皮肤潮红", "红斑"]),
  ("皮肤苍白", ["皮肤苍白", "面色苍白", "苍白"]),
  ("皮肤发黄", ["皮肤发黄", "黄疸", "巩膜黄染"]),
  ("尿频", ["尿频", "小便频繁", "排尿次数增多", "尿次增多"]),
  ("尿急", ["尿急", "急迫性尿意", "尿意急迫", "憋不住尿"]),
  ("血尿", ["血尿", "尿血", "小便带血", "尿液发红"]),
  ("蛋白尿", ["蛋白尿", "尿蛋白", "尿液泡沫"]),
  ("尿潴留", ["尿潴留", "排尿困难", "尿不出"]),
  ("夜尿增多", ["夜尿增多", "夜间多尿", "夜尿频繁"]),
  ("心悸", ["心悸", "心慌", "心跳加快", "心跳快"]),
  ("心律不齐", ["心律不齐", "心跳不规律", "心律失常"]),
  ("心动过速", ["心动过速", "心跳过快", "心率快"]),
  ("心动过缓", ["心动过缓", "心跳过慢", "心率慢"]),
  ("视力模糊", ["视力模糊", "视物模糊", "看东西模糊", "视力下降", "视物不清"]),
  ("复视", ["复视", "看东西重影", "双影"]),
  ("畏光", ["畏光", "怕光", "光敏感", "见光流泪"]),
  ("眼干", ["眼干", "眼睛干涩", "干眼"]),
  ("流泪", ["流泪", "泪水增多", "溢泪"]),
  ("眼红", ["眼红", "眼睛发红", "结膜充血"]),
  ("听力下降", ["听力下降", "听力减退", "耳聋"]),
  ("耳鸣", ["耳鸣", "耳内响声"]),
  ("耳溢液", ["耳溢液", "耳朵流水", "耳朵流脓"]),
  ("鼻塞", ["鼻塞", "鼻堵", "鼻子不通气", "鼻阻塞"]),
  ("流鼻涕", ["流鼻涕", "鼻涕", "流涕", "鼻分泌物"]),
  ("打喷嚏", ["打喷嚏", "喷嚏", "连续打喷嚏"]),
  ("嗅觉减退", ["嗅觉减退", "嗅觉丧失", "闻不到味道"]),
  ("声音嘶哑", ["声音嘶哑", "嗓子哑", "声嘶"]),
  ("体重下降", ["体重下降", "体重减轻", "消瘦", "体重降低", "瘦了"]),
  ("体重增加", ["体重增加", "体重增长", "发胖", "长胖"]),
  ("出汗", ["出汗", "多汗", "汗多"]),
  ("盗汗", ["盗汗", "夜间出汗", "睡觉出汗"]),
  ("畏寒", ["畏寒", "怕冷", "寒冷"]),
  ("怕热", ["怕热", "畏热", "热感"]),
  ("口渴", ["口渴", "渴", "想喝水"]),
  ("口干", ["口干", "嘴干", "口腔干燥"]),
  ("多尿", ["多尿", "尿量增多", "小便多"]),
  ("少尿", ["少尿", "尿量减少", "小便少"])]

/-! ## Symptom name canonicalization (`_normalize_symptom_name`) -/

/-- Character class kept by `re.sub(r'[^\w一-鿿]', '', ...)`:
word characters (restricted here to ASCII letters, digits and underscore —
the only non-CJK word characters occurring in the table and corpus) plus the
CJK ideograph range `一`–`鿿` of the explicit regex range. -/
def isWordChar (c : Char) : Bool :=
  (('a' ≤ c && c ≤ 'z') || ('A' ≤ c && c ≤ 'Z') || ('0' ≤ c && c ≤ '9') || c == '_')
  || (0x4e00 ≤ c.toNat && c.toNat ≤ 0x9fff)

/-- Removal of punctuation and whitespace (`re.sub(r'[^\w一-鿿]', '', name)`). -/
def cleanName (s : String) : String := String.mk (s.data.filter isWordChar)

/-- Scan of the semantic groups in declared order: the first group one of
whose variants contains the cleaned name or is contained in it wins. -/
def scanGroups (c : String) : List (String × List String) → Option String
  | [] => none
  | (k, vs) :: rest =>
    if vs.any (fun v => occursInStr v c || occursInStr c v) then some k
    else scanGroups c rest

/-- The canonicalizer `ImprovedSymptomNormalizer._normalize_symptom_name`:
clean the name, return the canonical name of the first matching semantic
group, or the cleaned name itself when no group matches. -/
def normalizeSymptomName (s : String) : String :=
  match scanGroups (cleanName s) semanticGroups with
  | some k => k
  | none => cleanName s

/-! ## Symptom id generation (`_generate_symptom_id`)

The Python code computes `hashlib.md5(name.encode('utf-8')).hexdigest()[:8].upper()`
prefixed with `SYM_`.  MD5 (RFC 1321) is implemented below over the UTF-8
bytes of the name; all 32-bit words are naturals reduced mod `2 ^ 32`. -/

/-- Sine-derived MD5 round constants `K[i] = floor(abs(sin(i + 1)) * 2 ^ 32)`. -/
def md5K : List Nat := [
  3614090360, 3905402710, 606105819, 3250441966, 4118548399, 1200080426, 2821735955, 4249261313,
  1770035416, 2336552879, 4294925233, 2304563134, 1804603682, 4254626195, 2792965006, 1236535329,
  4129170786, 3225465664, 643717713, 3921069994, 3593408605, 38016083, 3634488961, 3889429448,
  568446438, 3275163606, 4107603335, 1163531501, 2850285829, 4243563512, 1735328473, 2368359562,
  4294588738, 2272392833, 1839030562, 4259657740, 2763975236, 1272893353, 4139469664, 3200236656,
  681279174, 3936430074, 3572445317, 76029189, 3654602809, 3873151461, 530742520, 3299628645,
  4096336452, 1126891415, 2878612391, 4237533241, 1700485571, 2399980690, 4293915773, 2240044497,
  1873313359, 4264355552, 2734768916, 1309151649, 4149444226, 3174756917, 718787259, 3951481745]

/-- Per-round left-rotation amounts of MD5. -/
def md5S : List Nat := [
  7, 12, 17, 22, 7, 12, 17, 22, 7, 12, 17, 22, 7, 12, 17, 22,
  5, 9, 14, 20, 5, 9, 14, 20, 5, 9, 14, 20, 5, 9, 14, 20,
  4, 11, 16, 23, 4, 11, 16, 23, 4, 11, 16, 23, 4, 11, 16, 23,
  6, 10, 15, 21, 6, 10, 15, 21, 6, 10, 15, 21, 6, 10, 15, 21]

/-- Expected ids of the 130 canonical names, in table order (checked below
against `generateSymptomId` by kernel evaluation). -/
def expectedIds : List String := [
  "SYM_4A41D991", "SYM_D7307963", "SYM_D0C7C1EE", "SYM_58554AC5", "SYM_F4952DCE",
  "SYM_027DDB77", "SYM_B8459D8F", "SYM_2D320DF1", "SYM_14E745FE", "SYM_116A7368",
  "SYM_86083CCB", "SYM_CE2A20A0", "SYM_B88390DA", "SYM_9DD891E9", "SYM_2CC8677C",
  "SYM_87F0255E", "SYM_5F99A6D3", "SYM_6322220A", "SYM_1F0CE7AD", "SYM_F61C1B24",
  "SYM_DC4B1432", "SYM_3286D31D", "SYM_ADCAB47C", "SYM_0093978C", "SYM_FADECBEA",
  "SYM_4D785DD9", "SYM_3C46C91E", "SYM_C9C518E0", "SYM_E2641170", "SYM_21261978",
  "SYM_24183D8A", "SYM_16E4510B", "SYM_9EE65AAB", "SYM_B2F35B52", "SYM_AB1FFEF2",
  "SYM_63048795", "SYM_2D3E3405", "SYM_F180A020", "SYM_BEE0998E", "SYM_DB88629C",
  "SYM_5396CB2B", "SYM_506AF8D0", "SYM_02AC3AC5", "SYM_606B6F1E", "SYM_754D05C5",
  "SYM_E87243C5", "SYM_CAE86CA3", "SYM_3D33AD9A", "SYM_6AD5DB20", "SYM_6A9E78F9",
  "SYM_73BD92F3", "SYM_7C0D50C8", "SYM_B37F5B57", "SYM_16635872", "SYM_3014F037",
  "SYM_20B0AB38", "SYM_7534533B", "SYM_65264C87", "SYM_FA4E14D9", "SYM_05667E6F",
  "SYM_4F4EF19F", "SYM_AE820E1F", "SYM_E018FF0D", "SYM_1BF0434F", "SYM_29F8C066",
  "SYM_568A113A", "SYM_F470923B", "SYM_B5FD325C", "SYM_2E856301", "SYM_0A054754",
  "SYM_519CE5DA", "SYM_8AE69380", "SYM_C7380697", "SYM_623C4FC4", "SYM_78AF2FF4",
  "SYM_12251446", "SYM_5781E035", "SYM_80EA841C", "SYM_244D9AAF", "SYM_2CFA9657",
  "SYM_280FD0F3", "SYM_513BBBEF", "SYM_1205EA6B", "SYM_C58A961D", "SYM_B67FB320",
  "SYM_02BF3E03", "SYM_B25F2760", "SYM_4AA3A213", "SYM_622B6431", "SYM_9D5505C2",
  "SYM_51C9DBAA", "SYM_925038E9", "SYM_241FFAA9", "SYM_3556C37C", "SYM_BA389EB7",
  "SYM_2A7EDAE5", "SYM_2AA06982", "SYM_BDB17CBD", "SYM_2433D31F", "SYM_F292454E",
  "SYM_1CE678E3", "SYM_3E611071", "SYM_23E24960", "SYM_5859495E", "SYM_A744B194",
  "SYM_ABCEFF57", "SYM_9EAFFCDC", "SYM_8504A358", "SYM_8E63A0B8", "SYM_9CC1ADD3",
  "SYM_C6FE3DF0", "SYM_3893DDE4", "SYM_3EFE5FE1", "SYM_CD2735A2", "SYM_0B780919",
  "SYM_F4FAA7C4", "SYM_5A712B30", "SYM_D337389E", "SYM_CAC0AFE5", "SYM_1D0B1CB9",
  "SYM_734C8E45", "SYM_1D5F4C23", "SYM_94B15CD2", "SYM_DAD6726B", "SYM_56085C5B",
  "SYM_F3BA1414", "SYM_A9BB3315", "SYM_7814F526", "SYM_12D921D1", "SYM_A5E613B5"]

/-- Canonical names of the table that do not re-normalize to themselves:
scanning the table with such a name as input hits an earlier group first
(for example `颅内压增高性头痛` contains the variant `头痛` of the first
group).  On every input whose normalization avoids this list, the
canonicalizer is idempotent (see the theorem for C2). -/
def badCanonicalNames : List String := [
  "偏头痛", "颅内压增高性头痛", "紧张性头痛", "腹痛",
  "右上腹痛", "左上腹痛", "腰背痛", "关节痛",
  "骨痛", "胀痛", "绞痛", "持续发热",
  "间歇性发热", "干咳", "湿咳", "慢性咳嗽",
  "咳痰", "胸闷", "干呕", "眩晕",
  "流泪", "畏寒", "多尿"]
/-- Left rotation of a 32-bit word. -/
def rotl32 (x s : Nat) : Nat := ((x <<< s) ||| (x >>> (32 - s))) % 4294967296

/-- UTF-8 encoding of a single code point (Python `str.encode('utf-8')`). -/
def utf8EncodeChar (c : Char) : List Nat :=
  let n := c.toNat
  if n < 128 then [n]
  else if n < 2048 then [192 + n / 64, 128 + n % 64]
  else if n < 65536 then [224 + n / 4096, 128 + (n / 64) % 64, 128 + n % 64]
  else [240 + n / 262144, 128 + (n / 4096) % 64, 128 + (n / 64) % 64, 128 + n % 64]

/-- UTF-8 bytes of a string. -/
def utf8Bytes (s : String) : List Nat := (s.data.map utf8EncodeChar).flatten

/-- Little-endian byte decomposition (`k` bytes of `n`). -/
def leBytes : Nat → Nat → List Nat
  | 0, _ => []
  | k + 1, n => (n % 256) :: leBytes k (n / 256)

/-- MD5 padding: append `0x80`, zero-pad to 56 mod 64, append the 64-bit
little-endian bit length. -/
def md5Pad (msg : List Nat) : List Nat :=
  let len := msg.length
  let zeros := (120 - ((len + 1) % 64)) % 64
  msg ++ [128] ++ List.replicate zeros 0 ++ leBytes 8 ((8 * len) % 18446744073709551616)

/-- Little-endian 32-bit words of a byte sequence. -/
def toWords : List Nat → List Nat
  | b0 :: b1 :: b2 :: b3 :: rest => (b0 + 256 * b1 + 65536 * b2 + 16777216 * b3) :: toWords rest
  | _ => []

/-- One MD5 round on the state `(a, b, c, d)` with message block `X`. -/
def md5Step (X : List Nat) (st : Nat × Nat × Nat × Nat) (i : Nat) : Nat × Nat × Nat × Nat :=
  let a := st.1; let b := st.2.1; let c := st.2.2.1; let d := st.2.2.2
  let fg : Nat × Nat :=
    if i < 16 then ((b &&& c) ||| ((b ^^^ 4294967295) &&& d), i)
    else if i < 32 then ((d &&& b) ||| ((d ^^^ 4294967295) &&& c), (5 * i + 1) % 16)
    else if i < 48 then (b ^^^ c ^^^ d, (3 * i + 5) % 16)
    else (c ^^^ (b ||| (d ^^^ 4294967295)), (7 * i) % 16)
  let f := (fg.1 + a + md5K.getD i 0 + X.getD fg.2 0) % 4294967296
  (d, (b + rotl32 f (md5S.getD i 0)) % 4294967296, b, c)

/-- Processing of one 64-byte block. -/
def md5Block (st : Nat × Nat × Nat × Nat) (X : List Nat) : Nat × Nat × Nat × Nat :=
  let r := (List.range 64).foldl (md5Step X) st
  ((st.1 + r.1) % 4294967296, (st.2.1 + r.2.1) % 4294967296,
   (st.2.2.1 + r.2.2.1) % 4294967296, (st.2.2.2 + r.2.2.2) % 4294967296)

/-- Processing of the padded message, sixteen 32-bit words per block. -/
def md5Words (st : Nat × Nat × Nat × Nat) : List Nat → Nat × Nat × Nat × Nat
  | w0 :: w1 :: w2 :: w3 :: w4 :: w5 :: w6 :: w7 ::
    w8 :: w9 :: w10 :: w11 :: w12 :: w13 :: w14 :: w15 :: rest =>
      md5Words (md5Block st
        [w0, w1, w2, w3, w4, w5, w6, w7, w8, w9, w10, w11, w12, w13, w14, w15]) rest
  | _ => st

/-- MD5 digest (16 bytes) of a byte sequence. -/
def md5Bytes (msg : List Nat) : List Nat :=
  let st := md5Words (1732584193, 4023233417, 2562383102, 271733878) (toWords (md5Pad msg))
  leBytes 4 st.1 ++ leBytes 4 st.2.1 ++ leBytes 4 st.2.2.1 ++ leBytes 4 st.2.2.2

/-- Lowercase hexadecimal digit. -/
def hexDigit (n : Nat) : Char := if n < 10 then Char.ofNat (48 + n) else Char.ofNat (87 + n)

/-- Two lowercase hex characters of a byte (as in `hexdigest`). -/
def byteToHex (b : Nat) : List Char := [hexDigit (b / 16), hexDigit (b % 16)]

/-- The id generator `ImprovedSymptomNormalizer._generate_symptom_id`:
`"SYM_" + md5(name.encode('utf-8')).hexdigest()[:8].upper()`. -/
def generateSymptomId (name : String) : String :=
  "SYM_" ++ String.mk ((((md5Bytes (utf8Bytes name)).map byteToHex).flatten.take 8).map
    Char.toUpper)

/-! ## Knowledge-base canonicalization (`normalize_disease_data`) -/

/-- Raw symptom record of the input knowledge base (`symptom_name`,
`specificity` fields used by the normalizer). -/
structure RawSymptom where
  symptom_name : String
  specificity : Bool
deriving DecidableEq, Repr

/-- Raw disease record of the input knowledge base (fields `疾病ID`,
`疾病名称`, `症状列表` of the JSON records). -/
structure RawDisease where
  disease_id : String
  disease_name : String
  symptom_list : List RawSymptom
deriving DecidableEq, Repr

/-- Canonicalized symptom record: the original fields plus the assigned
`symptom_id` and `normalized_name` (the `symptom.copy()` update). -/
structure NormSymptom where
  symptom_name : String
  specificity : Bool
  symptom_id : String
  normalized_name : String
deriving DecidableEq, Repr

/-- Canonicalized disease record (same field layout as `RawDisease`). -/
structure NormDisease where
  disease_id : String
  disease_name : String
  symptom_list : List NormSymptom
deriving DecidableEq, Repr

/-- Reverse-index disease entry (`disease_info` dict of the source). -/
structure DiseaseInfo where
  disease_id : String
  disease_name : String
  specificity : Bool
deriving DecidableEq, Repr

/-- All normalized names of non-empty symptom names, in scan order; the key
set of `analysis['symptom_counter']` (and hence of `unified_symptom_ids`) is
exactly the set of members of this list. -/
def collectNormalizedNames (data : List RawDisease) : List String :=
  (data.map (fun d =>
    (d.symptom_list.filter (fun s => s.symptom_name ≠ "")).map
      (fun s => normalizeSymptomName s.symptom_name))).flatten

/-- The dict `unified_symptom_ids` as a lookup function: every normalized
name seen by `analyze_symptoms` is mapped to its generated id (the stored
value is `_generate_symptom_id` of the name, independent of insertion
order); other names are absent (`dict.get` returns `None`). -/
def unifiedSymptomIds (data : List RawDisease) (n : String) : Option String :=
  if n ∈ collectNormalizedNames data then some (generateSymptomId n) else none

/-- Per-symptom update of `normalize_disease_data`: look up the unified id
of the normalized name; a symptom whose id is absent is dropped (the
`if unified_id:` guard — generated ids are never empty, so truthiness
is exactly `Option.isSome`). -/
def updateSymptom (data : List RawDisease) (s : RawSymptom) : Option NormSymptom :=
  match unifiedSymptomIds data (normalizeSymptomName s.symptom_name) with
  | some uid => some ⟨s.symptom_name, s.specificity, uid, normalizeSymptomName s.symptom_name⟩
  | none => none

/-- The canonicalized disease table (`updated_diseases`). -/
def normalizeDiseaseData (data : List RawDisease) : List NormDisease :=
  data.map (fun d => ⟨d.disease_id, d.disease_name, d.symptom_list.filterMap (updateSymptom data)⟩)

/-- Reverse-index entry built for a (disease, symptom) pair. -/
def mkDiseaseInfo (d : RawDisease) (s : RawSymptom) : DiseaseInfo :=
  ⟨d.disease_id, d.disease_name, s.specificity⟩

/-- The accumulated bucket `symptom_to_diseases[uid]`: one `disease_info`
appended per (disease, symptom) pair whose unified id is `uid`, in
processing order. -/
def symptomToDiseasesAccum (data : List RawDisease) (uid : String) : List DiseaseInfo :=
  (data.map (fun d => d.symptom_list.filterMap (fun s =>
     match updateSymptom data s with
     | some ns => if ns.symptom_id = uid then some (mkDiseaseInfo d s) else none
     | none => none))).flatten

/-- First-occurrence deduplication by `disease_id` (the `seen_disease_ids`
loop of `create_reverse_mapping`). -/
def dedupDiseases (seen : List String) : List DiseaseInfo → List DiseaseInfo
  | [] => []
  | i :: is =>
    if i.disease_id ∈ seen then dedupDiseases seen is
    else i :: dedupDiseases (i.disease_id :: seen) is

/-- Reverse-index entry of `create_reverse_mapping`. -/
structure ReverseEntry where
  symptom_name : Option String
  disease_count : Nat
  diseases : List DiseaseInfo
deriving DecidableEq, Repr

/-- Name recovered for an id (the linear search over
`unified_symptom_ids.items()`). -/
def reverseEntryName (data : List RawDisease) (uid : String) : Option String :=
  (collectNormalizedNames data).find? (fun n => generateSymptomId n == uid)

/-- The reverse mapping of `create_reverse_mapping`, as a function from
symptom id to entry (dict lookup). -/
def createReverseMapping (data : List RawDisease) (uid : String) : ReverseEntry :=
  let ds := dedupDiseases [] (symptomToDiseasesAccum data uid)
  ⟨reverseEntryName data uid, ds.length, ds⟩

/-! ## Exact fractions for match percentages

Python computes `confirmed_count / total_count * 100` as a float; the exact
rational value is `confirmed_count * 100 / total_count`.  `Frac` keeps the
numerator and denominator unreduced so that all agent computations are
kernel-executable; `Frac.toQ` is the rational value, and the boolean
comparisons below are cross-multiplications, which agree with the rational
order since every fraction the code builds has a positive denominator. -/

structure Frac where
  num : Nat
  den : Nat
deriving DecidableEq, Repr

/-- Value of a fraction in `ℚ`. -/
def Frac.toQ (f : Frac) : ℚ := (f.num : ℚ) / (f.den : ℚ)

/-- The percentage `(confirmed_count / total_count * 100) if total_count > 0
else 0` of `find_potential_diseases`. -/
def pctOf (c t : Nat) : Frac := if 0 < t then ⟨c * 100, t⟩ else ⟨0, 1⟩

/-- Boolean order `a ≤ b` by cross-multiplication. -/
def Frac.ble (a b : Frac) : Bool := decide (a.num * b.den ≤ b.num * a.den)

/-- The diagnosis threshold test `match_percentage >= 100.0`. -/
def Frac.bge100 (a : Frac) : Bool := decide (100 * a.den ≤ a.num)

/-! ## Stable descending sort

`disease_progress.sort(key=lambda x: x.match_percentage, reverse=True)` is a
stable sort; the stable descending ordering by a key is unique, so the
structural insertion sort below computes exactly the list Python produces
(`keep y x` holds when the earlier element `y` stays in front of `x`). -/

/-- Insertion of `x` after every element `y` with `keep y x`. -/
def insertKeep (keep : α → α → Bool) (x : α) : List α → List α
  | [] => [x]
  | y :: ys => if keep y x then y :: insertKeep keep x ys else x :: y :: ys

/-- Stable sort: earlier elements are kept in front whenever `keep` holds. -/
def stableSortBy (keep : α → α → Bool) (l : List α) : List α :=
  l.foldl (fun acc x => insertKeep keep x acc) []

/-! ## Agent data model (`cotc_agent_final.py`) -/

/-- The dataclass `SymptomMatch` (`match_confidence` is the float `1.0`
everywhere in the source, kept as the fraction `1/1`). -/
structure SymptomMatch where
  symptom_name : String
  is_confirmed : Bool
  confirmation_source : String
  match_confidence : Frac
deriving DecidableEq, Repr

/-- The dataclass `DiseaseMatchProgress`. -/
structure DiseaseMatchProgress where
  disease_id : String
  disease_name : String
  total_symptoms : Nat
  confirmed_symptoms : Nat
  match_percentage : Frac
  missing_symptoms : List String
  lifestyle_factors : List String
  current_questions : List String
deriving DecidableEq, Repr

/-- The dataclass `PatientProfile`; `lifestyle_factors` is an insertion-order
association list modelling the dict, and `conversation_history` (never
touched by the modelled functions) is kept abstract as strings. -/
structure PatientProfile where
  patient_id : String
  age : Nat
  gender : String
  medical_history : List String
  confirmed_symptoms : List SymptomMatch
  lifestyle_factors : List (String × String)
  conversation_history : List String
deriving DecidableEq, Repr

/-- Symptom entry of the agent's disease database (`symptom.get("symptom_name", "")`). -/
structure DBSymptom where
  symptom_name : String
deriving DecidableEq, Repr

/-- Disease record of the agent's database (fields `疾病ID`, `疾病名称`,
`症状列表`). -/
structure DBDisease where
  disease_id : String
  disease_name : String
  symptom_list : List DBSymptom
deriving DecidableEq, Repr

/-- The parsed database dict (`{"疾病库": [...]}`). -/
structure DiseaseDatabase where
  disease_list : List DBDisease
deriving DecidableEq, Repr

/-! ## Dict operations for `lifestyle_factors` -/

/-- Key membership of the association-list dict. -/
def dictContains : List (String × String) → String → Bool
  | [], _ => false
  | kv :: rest, k => kv.1 == k || dictContains rest k

/-- Dict lookup (first binding of the key). -/
def dictGet : List (String × String) → String → Option String
  | [], _ => none
  | kv :: rest, k => if kv.1 == k then some kv.2 else dictGet rest k

/-- Dict item assignment `m[k] = v`: replace in place or append. -/
def dictSet (m : List (String × String)) (k v : String) : List (String × String) :=
  if dictContains m k then m.map (fun kv => if kv.1 == k then (k, v) else kv)
  else m ++ [(k, v)]

/-! ## DiseaseMatcher -/

/-- The `try`/`except` of `DiseaseMatcher.load_disease_database`: the result
of `open` + `json.load` is passed as an `Except`; any exception is caught and
the default `{"疾病库": []}` is returned, so the function never propagates an
error. -/
def loadDiseaseDatabase (readResult : Except String DiseaseDatabase) :
    Except String DiseaseDatabase :=
  match readResult with
  | Except.ok db => Except.ok db
  | Except.error _ => Except.ok ⟨[]⟩

/-- The mapping `build_symptom_mapping` as a lookup function: for a non-empty
symptom name, the `(disease_id, disease_name)` pairs of every disease record
listing that name, one per occurrence, in database order; empty names are
skipped (`if symptom_name:`), so they have no key. -/
def symptomToDiseases (db : DiseaseDatabase) (name : String) : List (String × String) :=
  if name = "" then []
  else (db.disease_list.map (fun d => d.symptom_list.filterMap (fun s =>
        if s.symptom_name = name then some (d.disease_id, d.disease_name) else none))).flatten

/-- `DiseaseMatcher.get_disease_symptoms`: the symptom names of the first
record with the given id, or `[]`. -/
def getDiseaseSymptoms (db : DiseaseDatabase) (did : String) : List String :=
  match db.disease_list.find? (fun d => d.disease_id == did) with
  | some d => d.symptom_list.map (fun s => s.symptom_name)
  | none => []

/-- Accumulator entry of the `disease_scores` dict: the recorded name and
the list of confirmed symptom names appended for this disease. -/
structure ScoreEntry where
  disease_id : String
  disease_name : String
  bucket : List String
deriving DecidableEq, Repr

/-- One append `disease_scores[disease_id]["confirmed_symptoms"].append(...)`,
creating the entry on first contact (dicts keep insertion order). -/
def bumpScore (acc : List ScoreEntry) (did dname sname : String) : List ScoreEntry :=
  if acc.any (fun e => e.disease_id == did) then
    acc.map (fun e => if e.disease_id == did then
      ⟨e.disease_id, e.disease_name, e.bucket ++ [sname]⟩ else e)
  else acc ++ [⟨did, dname, [sname]⟩]

/-- Inner loop over `self.symptom_to_diseases[symptom_name]`. -/
def addForInfos (acc : List ScoreEntry) (sname : String) :
    List (String × String) → List ScoreEntry
  | [] => acc
  | (did, dname) :: rest => addForInfos (bumpScore acc did dname sname) sname rest

/-- The `disease_scores` accumulation loop of `find_potential_diseases`
(an unconfirmed match, or a name that is no key of the mapping — equivalently
one with no disease pairs — contributes nothing). -/
def accumScores (db : DiseaseDatabase) (confirmed : List SymptomMatch) : List ScoreEntry :=
  confirmed.foldl (fun acc m =>
    if m.is_confirmed then addForInfos acc m.symptom_name (symptomToDiseases db m.symptom_name)
    else acc) []

/-- Progress record built for one accumulator entry: total and missing
symptoms come from `get_disease_symptoms`. -/
def mkProgress (db : DiseaseDatabase) (e : ScoreEntry) : DiseaseMatchProgress :=
  let allSymptoms := getDiseaseSymptoms db e.disease_id
  ⟨e.disease_id, e.disease_name, allSymptoms.length, e.bucket.length,
   pctOf e.bucket.length allSymptoms.length,
   allSymptoms.filter (fun s => !(e.bucket.contains s)), [], []⟩

/-- `DiseaseMatcher.find_potential_diseases`: accumulate, build progress
records, sort by match percentage descending (stable). -/
def findPotentialDiseases (db : DiseaseDatabase) (confirmed : List SymptomMatch) :
    List DiseaseMatchProgress :=
  stableSortBy (fun a b => Frac.ble b.match_percentage a.match_percentage)
    ((accumScores db confirmed).map (mkProgress db))

/-! ## COTCAgent -/

/-- Mutable agent attributes set in `COTCAgent.__init__`. -/
structure AgentState where
  current_analysis_step : Nat
  max_verification_rounds : Nat
  verification_round : Nat
  current_disease_focus : Option DiseaseMatchProgress
deriving DecidableEq, Repr

/-- Initial attribute values of `COTCAgent.__init__`. -/
def initAgentState : AgentState := ⟨0, 5, 0, none⟩

/-- Payload of the `diagnosis` dict of `generate_final_diagnosis`. -/
structure Diagnosis where
  disease_name : String
  confidence : String
  match_percentage : Frac
  confirmed_symptoms : List String
  reasoning : String
deriving DecidableEq, Repr

/-- Payload of the `focus_disease` dict of `generate_verification_questions`. -/
structure FocusDisease where
  disease_id : String
  disease_name : String
  match_percentage : Frac
  confirmed_symptoms : List String
  missing_symptoms : List String
  total_symptoms : Nat
deriving DecidableEq, Repr

/-- Payload of the `match_visualization` dict. -/
structure MatchVisualization where
  disease_name : String
  progress_current : Nat
  progress_total : Nat
  progress_percentage : Frac
  confirmed : List String
  missing : List String
  total_needed : Nat
  next_steps : String
deriving DecidableEq, Repr

/-- The three result dict shapes a turn can return, discriminated by their
`status` field (`diagnosis_complete`, `verification_needed`, `no_matches`).
The `diagnosisComplete` constructor carries no question list — the diagnosis
output has no such field. -/
inductive AgentResponse where
  | diagnosisComplete (analysis_step : Nat) (diagnosis : Diagnosis)
      (recommendations : List String) (lifestyle_advice : List String)
  | verificationNeeded (analysis_step : Nat) (focus_disease : FocusDisease)
      (verification_questions : List String) (match_visualization : MatchVisualization)
  | noMatches (analysis_step : Nat) (message : String) (suggested_questions : List String)
deriving DecidableEq, Repr

/-- Discriminator for the `verification_needed` shape. -/
def AgentResponse.isVerificationNeeded : AgentResponse → Bool
  | .verificationNeeded _ _ _ _ => true
  | _ => false

/-- The list comprehension
`[s.symptom_name for s in patient_profile.confirmed_symptoms if s.is_confirmed]`. -/
def confirmedSymptomNames (p : PatientProfile) : List String :=
  (p.confirmed_symptoms.filter (fun s => s.is_confirmed)).map (fun s => s.symptom_name)

/-- The fixed recommendation strings of `generate_final_diagnosis`. -/
def staticRecommendations : List String :=
  ["建议尽快就医确诊并接受治疗", "密切观察症状变化", "如有症状加重，及时就医"]

/-- `COTCAgent.generate_lifestyle_advice`. -/
def generateLifestyleAdvice (m : List (String × String)) : List String :=
  (if dictContains m "压力" then ["建议适当减压，保持心情愉快"] else []) ++
  (if dictContains m "饮食" then ["注意饮食规律，避免刺激性食物"] else []) ++
  (if dictContains m "睡眠" then ["保持规律作息，确保充足睡眠"] else []) ++
  (if dictContains m "运动" then ["适当运动，增强体质"] else [])

/-- `COTCAgent.generate_final_diagnosis`. -/
def generateFinalDiagnosis (st : AgentState) (disease : DiseaseMatchProgress)
    (profile : PatientProfile) : AgentResponse :=
  .diagnosisComplete st.current_analysis_step
    ⟨disease.disease_name, "high", disease.match_percentage, confirmedSymptomNames profile,
     "基于症状分析，您患有" ++ disease.disease_name ++ "的概率很高"⟩
    staticRecommendations
    (generateLifestyleAdvice profile.lifestyle_factors)

/-- `COTCAgent.generate_targeted_questions` (the `patient_profile` argument
is unused by the source as well). -/
def generateTargetedQuestions (focus : DiseaseMatchProgress)
    (_profile : PatientProfile) : List String :=
  (((focus.missing_symptoms.take 1).map (fun s => "您是否还出现了" ++ s ++ "的症状？")) ++
   (if occursInStr "肠胃" focus.disease_name || occursInStr "消化" focus.disease_name then
      ["您最近的饮食习惯有什么变化吗？"]
    else if occursInStr "头痛" focus.disease_name || occursInStr "偏头痛" focus.disease_name then
      ["您最近的工作压力大吗？"]
    else if occursInStr "失眠" focus.disease_name || occursInStr "睡眠" focus.disease_name then
      ["您的睡眠质量如何？"]
    else ["您最近的生活习惯有什么变化吗？"])).take 2

/-- `COTCAgent.generate_match_visualization` (`next_steps` embeds the Python
integer `total - confirmed`, which can be negative). -/
def generateMatchVisualization (focus : DiseaseMatchProgress)
    (profile : PatientProfile) : MatchVisualization :=
  ⟨focus.disease_name, focus.confirmed_symptoms, focus.total_symptoms,
   focus.match_percentage, confirmedSymptomNames profile, focus.missing_symptoms.take 3,
   focus.total_symptoms,
   "需要确认 " ++ toString ((focus.total_symptoms : Int) - (focus.confirmed_symptoms : Int)) ++
     " 个症状才能完成诊断"⟩

/-- The `no_matches` message text. -/
def noMatchesMessage : String := "未找到匹配的疾病模式"

/-- The generic broadening questions of the `no_matches` branch. -/
def genericSuggestedQuestions : List String :=
  ["您能更详细地描述一下症状吗？", "这些症状是什么时候开始的？", "症状的严重程度如何？"]

/-- `COTCAgent.generate_verification_questions`: select the focus disease
(mutating `current_disease_focus`), short-circuit to a diagnosis at 100%,
otherwise emit the verification payload; with no candidates, emit the
`no_matches` payload. -/
def generateVerificationQuestions (st : AgentState)
    (progress : List DiseaseMatchProgress) (profile : PatientProfile) :
    AgentResponse × AgentState :=
  match progress with
  | focus :: _ =>
    let st' : AgentState := ⟨st.current_analysis_step, st.max_verification_rounds,
      st.verification_round, some focus⟩
    if Frac.bge100 focus.match_percentage then (generateFinalDiagnosis st' focus profile, st')
    else
      (.verificationNeeded st'.current_analysis_step
        ⟨focus.disease_id, focus.disease_name, focus.match_percentage,
         confirmedSymptomNames profile, focus.missing_symptoms.take 3, focus.total_symptoms⟩
        (generateTargetedQuestions focus profile)
        (generateMatchVisualization focus profile), st')
  | [] => (.noMatches st.current_analysis_step noMatchesMessage genericSuggestedQuestions, st)

/-- The hardcoded trigger-word table of `extract_and_confirm_symptoms`,
in declaration order. -/
def symptomKeywordMapping : List (String × List String) :=
  [("头疼", ["头痛"]), ("头痛", ["头痛"]), ("胸闷", ["胸闷"]), ("胸痛", ["胸痛"]),
   ("脚后跟疼", ["足跟痛"]), ("脚疼", ["足痛"]), ("腹痛", ["腹痛"]), ("肚子疼", ["腹痛"]),
   ("发热", ["发热"]), ("发烧", ["发热"]), ("恶心", ["恶心"]), ("呕吐", ["呕吐"]),
   ("头晕", ["头晕"]), ("失眠", ["失眠"]), ("咳嗽", ["咳嗽"]), ("呼吸困难", ["呼吸困难"]),
   ("心悸", ["心悸"]), ("腹泻", ["腹泻"]), ("便秘", ["便秘"])]

/-- `COTCAgent.extract_and_confirm_symptoms`: for every trigger word contained
in the input, add its medical symptoms unless already present in the
profile's `confirmed_symptoms` (note: the check consults the profile only,
not the entries accumulated earlier in the same call). -/
def extractAndConfirmSymptoms (userInput : String) (profile : PatientProfile) :
    List SymptomMatch :=
  symptomKeywordMapping.foldl (fun acc kv =>
    if occursInStr kv.1 userInput then
      kv.2.foldl (fun acc2 med =>
        if profile.confirmed_symptoms.any (fun s => s.symptom_name == med) then acc2
        else acc2 ++ [⟨med, true, "user_input", ⟨1, 1⟩⟩]) acc
    else acc) []

/-- `COTCAgent.process_user_query`: extract, extend the profile, score,
diagnose at 100% or ask verification questions.  The result bundles the
returned dict with the mutated agent attributes and profile. -/
def processUserQuery (db : DiseaseDatabase) (st : AgentState) (userInput : String)
    (profile : PatientProfile) : AgentResponse × AgentState × PatientProfile :=
  let newSymptoms := extractAndConfirmSymptoms userInput profile
  let profile' : PatientProfile :=
    ⟨profile.patient_id, profile.age, profile.gender, profile.medical_history,
     profile.confirmed_symptoms ++ newSymptoms, profile.lifestyle_factors,
     profile.conversation_history⟩
  let progress := findPotentialDiseases db profile'.confirmed_symptoms
  match progress.filter (fun d => Frac.bge100 d.match_percentage) with
  | p :: _ => (generateFinalDiagnosis st p profile', st, profile')
  | [] =>
    let r := generateVerificationQuestions st progress profile'
    (r.1, r.2, profile')

/-- The lifestyle keyword families of `analyze_user_response`, in
declaration order. -/
def lifestyleFactorFamilies : List (String × List String) :=
  [("压力", ["压力", "紧张", "焦虑", "工作"]),
   ("饮食", ["饮食", "吃", "食物", "油腻"]),
   ("睡眠", ["睡眠", "睡觉", "失眠", "休息"]),
   ("运动", ["运动", "锻炼", "活动", "走路"])]

/-- The lifestyle loop of `analyze_user_response`: for every family with a
keyword contained in the response, store the whole response under the
factor key. -/
def applyLifestyleFactors (response : String) (m : List (String × String)) :
    List (String × String) :=
  lifestyleFactorFamilies.foldl (fun acc fam =>
    if fam.2.any (fun k => occursInStr k response) then dictSet acc fam.1 response else acc) m

/-- Test used below: some lifestyle keyword occurs in the utterance. -/
def containsLifestyleKeyword (u : String) : Bool :=
  lifestyleFactorFamilies.any (fun fam => fam.2.any (fun k => occursInStr k u))

/-- `COTCAgent.analyze_user_response`: confirm missing symptoms of the current
focus that the response both mentions and affirms (`是`/`有`/`确实`), then
run the lifestyle loop (which mutates the profile).  Returns the new
confirmations and the mutated profile. -/
def analyzeUserResponse (st : AgentState) (response : String)
    (profile : PatientProfile) : List SymptomMatch × PatientProfile :=
  let confs : List SymptomMatch :=
    match st.current_disease_focus with
    | none => []
    | some focus => focus.missing_symptoms.filterMap (fun missing =>
        if occursInStr missing response &&
           (occursInStr "是" response || occursInStr "有" response ||
            occursInStr "确实" response)
        then some ⟨missing, true, "user_confirmation", ⟨1, 1⟩⟩ else none)
  (confs,
   ⟨profile.patient_id, profile.age, profile.gender, profile.medical_history,
    profile.confirmed_symptoms,
    applyLifestyleFactors response profile.lifestyle_factors,
    profile.conversation_history⟩)

/-- `COTCAgent.process_user_response`: analyze the answer, extend the profile,
rescore, diagnose at 100% or ask again. -/
def processUserResponse (db : DiseaseDatabase) (st : AgentState) (response : String)
    (profile : PatientProfile) : AgentResponse × AgentState × PatientProfile :=
  let ap := analyzeUserResponse st response profile
  let profile' : PatientProfile :=
    ⟨ap.2.patient_id, ap.2.age, ap.2.gender, ap.2.medical_history,
     ap.2.confirmed_symptoms ++ ap.1, ap.2.lifestyle_factors, ap.2.conversation_history⟩
  let progress := findPotentialDiseases db profile'.confirmed_symptoms
  match progress.filter (fun d => Frac.bge100 d.match_percentage) with
  | p :: _ => (generateFinalDiagnosis st p profile', st, profile')
  | [] =>
    let r := generateVerificationQuestions st progress profile'
    (r.1, r.2, profile')

/-! ## Per-disease slice of the scoring computation

`find_potential_diseases` accumulates, for each disease id, the list of
confirmed symptom names contributed by the mapping; the two definitions
below compute that bucket and the resulting percentage for a single disease
id directly.  The theorem for C4 proves that every progress record built by
`findPotentialDiseases` carries exactly this percentage. -/

/-- Confirmed-symptom bucket accumulated for one disease id: every confirmed
match contributes one copy of its name per pair of the mapping naming this
disease. -/
def confirmedBucketFor (db : DiseaseDatabase) (did : String)
    (confirmed : List SymptomMatch) : List String :=
  (confirmed.map (fun m =>
     if m.is_confirmed then
       (symptomToDiseases db m.symptom_name).filterMap (fun info =>
          if info.1 = did then some m.symptom_name else none)
     else [])).flatten

/-- Match percentage computed for one disease id from a confirmed list. -/
def matchPercentageFor (db : DiseaseDatabase) (did : String)
    (confirmed : List SymptomMatch) : Frac :=
  pctOf (confirmedBucketFor db did confirmed).length (getDiseaseSymptoms db did).length

/-! ## Concrete fixtures used by the closed theorems and witnesses -/

/-- The patient profile created in `main` (empty symptom and lifestyle data). -/
def baseProfile : PatientProfile :=
  ⟨"patient_0001", 35, "女", ["无重大疾病史"], [], [], []⟩

/-- An empty disease database (the value `load_disease_database` produces on
a failed load). -/
def emptyDb : DiseaseDatabase := ⟨[]⟩

/-- A database with a single two-symptom disease: confirming only `头痛`
keeps its match percentage at 50% forever. -/
def c1Db : DiseaseDatabase := ⟨[⟨"D1", "示例疾病甲", [⟨"头痛"⟩, ⟨"失眠"⟩]⟩]⟩

/-- One clarification turn of the concrete C1 session: the user answers
`没有`, confirming nothing. -/
def c1Turn (s : AgentState × PatientProfile) : AgentState × PatientProfile :=
  ((processUserResponse c1Db s.1 "没有" s.2).2.1,
   (processUserResponse c1Db s.1 "没有" s.2).2.2)

/-- Initial turn of the concrete C1 session: the user reports `头痛`. -/
def c1Start : AgentState × PatientProfile :=
  ((processUserQuery c1Db initAgentState "我头痛" baseProfile).2.1,
   (processUserQuery c1Db initAgentState "我头痛" baseProfile).2.2)

/-- Iterated clarification turns. -/
def iterTurns : Nat → (AgentState × PatientProfile) → AgentState × PatientProfile
  | 0, s => s
  | n + 1, s => iterTurns n (c1Turn s)

/-- A database with a single one-symptom disease: reporting `头痛` reaches
100% immediately. -/
def c3Db : DiseaseDatabase := ⟨[⟨"D1", "示例疾病乙", [⟨"头痛"⟩]⟩]⟩

/-- Database for the C4 witness. -/
def c4Db : DiseaseDatabase := ⟨[⟨"D1", "示例疾病丙", [⟨"头痛"⟩, ⟨"失眠"⟩]⟩]⟩

/-- Additional confirmed symptom for the C4 witness. -/
def c4X : SymptomMatch := ⟨"头痛", true, "user_input", ⟨1, 1⟩⟩

/-- Raw knowledge base for the C5 witness. -/
def c5Data : List RawDisease := [⟨"D1", "示例疾病丁", [⟨"头痛", true⟩]⟩]

/-! The self-normalization check for all 130 canonical names is split into
chunks of ten so that each kernel evaluation stays small. -/

/-- Chunk 1 of the canonical-name table. -/
def keyChunk1 : List String := ["头痛", "偏头痛", "颅内压增高性头痛", "紧张性头痛", "面部疼痛", "牙痛", "下颌痛", "颈痛", "咽痛", "胸痛"]

/-- Chunk 2 of the canonical-name table. -/
def keyChunk2 : List String := ["心前区疼痛", "胸闷痛", "肋间神经痛", "背痛", "上腹痛", "下腹痛", "腹痛", "右上腹痛", "左上腹痛", "脐周痛"]

/-- Chunk 3 of the canonical-name table. -/
def keyChunk3 : List String := ["腹绞痛", "腰痛", "腰背痛", "肾区疼痛", "关节痛", "肌肉痛", "骨痛", "四肢痛", "手痛", "腕痛"]

/-- Chunk 4 of the canonical-name table. -/
def keyChunk4 : List String := ["指痛", "腿痛", "膝痛", "踝痛", "足痛", "盆腔痛", "会阴痛", "耳痛", "眼痛", "鼻痛"]

/-- Chunk 5 of the canonical-name table. -/
def keyChunk5 : List String := ["尿痛", "睾丸痛", "刺痛", "胀痛", "隐痛", "绞痛", "撕裂痛", "烧灼痛", "搏动性疼痛", "剧痛"]

/-- Chunk 6 of the canonical-name table. -/
def keyChunk6 : List String := ["发热", "高热", "低热", "中等热度", "持续发热", "间歇性发热", "寒战", "咳嗽", "干咳", "湿咳"]

/-- Chunk 7 of the canonical-name table. -/
def keyChunk7 : List String := ["慢性咳嗽", "咳痰", "脓痰", "血痰", "咯血", "呼吸困难", "喘息", "胸闷", "恶心", "呕吐"]

/-- Chunk 8 of the canonical-name table. -/
def keyChunk8 : List String := ["干呕", "腹泻", "水样便", "便秘", "腹胀", "食欲不振", "便血", "黑便", "里急后重", "头晕"]

/-- Chunk 9 of the canonical-name table. -/
def keyChunk9 : List String := ["眩晕", "失眠", "嗜睡", "疲劳", "意识障碍", "昏迷", "抽搐", "癫痫发作", "皮疹", "瘙痒"]

/-- Chunk 10 of the canonical-name table. -/
def keyChunk10 : List String := ["红肿", "水肿", "皮肤干燥", "皮肤发红", "皮肤苍白", "皮肤发黄", "尿频", "尿急", "血尿", "蛋白尿"]

/-- Chunk 11 of the canonical-name table. -/
def keyChunk11 : List String := ["尿潴留", "夜尿增多", "心悸", "心律不齐", "心动过速", "心动过缓", "视力模糊", "复视", "畏光", "眼干"]

/-- Chunk 12 of the canonical-name table. -/
def keyChunk12 : List String := ["流泪", "眼红", "听力下降", "耳鸣", "耳溢液", "鼻塞", "流鼻涕", "打喷嚏", "嗅觉减退", "声音嘶哑"]

/-- Chunk 13 of the canonical-name table. -/
def keyChunk13 : List String := ["体重下降", "体重增加", "出汗", "盗汗", "畏寒", "怕热", "口渴", "口干", "多尿", "少尿"]

/-- Per-info contribution of one confirmed symptom name to the bucket of a
disease id: one copy of the name per mapping pair naming the disease. -/
def infoContrib (sname : String) (infos : List (String × String)) (did : String) :
    List String :=
  infos.filterMap (fun info => if info.1 = did then some sname else none)

/-- The profile as updated by `process_user_query` (confirmed symptoms
extended by the extraction result; nothing else changes). -/
def updatedQueryProfile (u : String) (p : PatientProfile) : PatientProfile :=
  ⟨p.patient_id, p.age, p.gender, p.medical_history,
   p.confirmed_symptoms ++ extractAndConfirmSymptoms u p, p.lifestyle_factors,
   p.conversation_history⟩

/-! ## Helper lemmas -/

/-- The agent state returned by `generate_verification_questions` keeps the
round counter (only `current_disease_focus` is assigned). -/
theorem gVQ_verification_round (st : AgentState) (progress : List DiseaseMatchProgress)
    (profile : PatientProfile) :
    ((generateVerificationQuestions st progress profile).2).verification_round =
      st.verification_round := by
  unfold generateVerificationQuestions
  split
  · split <;> rfl
  · rfl

/-- `process_user_response` never touches `verification_round`. -/
theorem processUserResponse_round (db : DiseaseDatabase) (st : AgentState)
    (response : String) (profile : PatientProfile) :
    ((processUserResponse db st response profile).2.1).verification_round =
      st.verification_round := by
  unfold processUserResponse
  dsimp only
  split
  · rfl
  · exact gVQ_verification_round st _ _

/-- `process_user_query` never touches `verification_round`. -/
theorem processUserQuery_round (db : DiseaseDatabase) (st : AgentState)
    (input : String) (profile : PatientProfile) :
    ((processUserQuery db st input profile).2.1).verification_round =
      st.verification_round := by
  unfold processUserQuery
  dsimp only
  split
  · rfl
  · exact gVQ_verification_round st _ _

/-! ## C1 -/

/-- C1: the claimed round limit does not exist in the code.  `COTCAgent`
initializes `max_verification_rounds = 5` and `verification_round = 0`, but
neither `process_user_query` nor `process_user_response` ever increments
`verification_round` or forces an inconclusive answer: in the concrete
session below (`我头痛` against a two-symptom disease, then six `没有`
answers confirming nothing) the seventh turn — beyond the claimed limit of
5 — still returns a `verification_needed` response and the counter is
still 0. -/
theorem c1_round_limit_never_enforced :
    (∀ (db : DiseaseDatabase) (st : AgentState) (response : String)
        (profile : PatientProfile),
      ((processUserResponse db st response profile).2.1).verification_round =
        st.verification_round)
    ∧ (∀ (db : DiseaseDatabase) (st : AgentState) (input : String)
        (profile : PatientProfile),
      ((processUserQuery db st input profile).2.1).verification_round =
        st.verification_round)
    ∧ initAgentState.max_verification_rounds = 5
    ∧ (iterTurns 6 c1Start).1.verification_round = 0
    ∧ (processUserResponse c1Db (iterTurns 6 c1Start).1 "没有"
        (iterTurns 6 c1Start).2).1.isVerificationNeeded = true := by
  refine ⟨processUserResponse_round, processUserQuery_round, rfl, ?_, ?_⟩ <;> decide

/-! ## C2 -/

/-- C2, counterexample: the normalizer is not idempotent.  `颅内压增高`
matches the variant list of `颅内压增高性头痛` and is canonicalized to that
group name, but the group name itself contains the variant `头痛` of the
first group, so a second normalization yields `头痛`. -/
theorem c2_counterexample_not_idempotent :
    normalizeSymptomName "颅内压增高" = "颅内压增高性头痛"
    ∧ normalizeSymptomName (normalizeSymptomName "颅内压增高") ≠
        normalizeSymptomName "颅内压增高" := by
  constructor <;> decide

/-! ## C6 -/

/-- C6: `extract_and_confirm_symptoms` checks prior confirmations against
`patient_profile.confirmed_symptoms` only, not against the entries
accumulated earlier in the same call, so one utterance containing two
trigger words of the same medical symptom (`发烧` and `发热` both map to
`发热`) appends two `SymptomMatch` entries with the same `symptom_name` to
an empty profile in a single turn. -/
theorem c6_duplicate_confirmation_bug :
    ((processUserQuery emptyDb initAgentState "我发烧发热" baseProfile).2.2.confirmed_symptoms.map
       (fun s => s.symptom_name)) = ["发热", "发热"]
    ∧ ((processUserQuery emptyDb initAgentState "我发烧发热"
        baseProfile).2.2.confirmed_symptoms.map (fun s => s.symptom_name)).count "发热" = 2 := by
  constructor <;> decide

/-! ## C8 -/

/-- C8, counterexample: a failed knowledge-base read is not propagated —
`load_disease_database` catches the exception and returns the empty
knowledge base `{"疾病库": []}`, so a (degenerate) knowledge base is
produced for subsequent matching. -/
theorem c8_counterexample_load_swallows_error :
    loadDiseaseDatabase (Except.error "FileNotFoundError") =
      Except.ok (⟨[]⟩ : DiseaseDatabase)
    ∧ loadDiseaseDatabase (Except.error "FileNotFoundError") ≠
        Except.error "FileNotFoundError" :=
  ⟨rfl, fun h => Except.noConfusion h⟩

/-- C8, amended: on any failed read the loader returns the empty knowledge
base (never an error), and on a successful read it returns the parsed
database unchanged. -/
theorem c8_amended_load_returns_empty_db :
    (∀ e, loadDiseaseDatabase (Except.error e) = Except.ok (⟨[]⟩ : DiseaseDatabase))
    ∧ (∀ db, loadDiseaseDatabase (Except.ok db) = Except.ok db) :=
  ⟨fun _ => rfl, fun _ => rfl⟩

/-- Dict update in place hits the first binding of the key. -/
theorem dictGet_map_update_self (m : List (String × String)) (k v : String)
    (h : dictContains m k = true) :
    dictGet (m.map (fun kv => if kv.1 == k then (k, v) else kv)) k = some v := by
  induction m with
  | nil => simp [dictContains] at h
  | cons a rest ih =>
    by_cases ha : a.1 == k
    · simp [dictGet, ha]
    · simp only [dictContains, ha, Bool.false_or] at h
      simp only [List.map_cons]
      rw [if_neg ha]
      simp only [dictGet]
      rw [if_neg ha]
      exact ih h

/-- Appending a fresh binding makes it the result of a lookup of its key. -/
theorem dictGet_append_self (m : List (String × String)) (k v : String)
    (h : dictContains m k = false) :
    dictGet (m ++ [(k, v)]) k = some v := by
  induction m with
  | nil => simp [dictGet]
  | cons a rest ih =>
    simp only [dictContains, Bool.or_eq_false_iff] at h
    simp [dictGet, h.1, ih h.2]

/-- Dict update in place of another key preserves a lookup. -/
theorem dictGet_map_update_ne (m : List (String × String)) (k k2 v : String)
    (hne : k2 ≠ k) :
    dictGet (m.map (fun kv => if kv.1 == k2 then (k2, v) else kv)) k = dictGet m k := by
  induction m with
  | nil => rfl
  | cons a rest ih =>
    by_cases ha : a.1 == k2
    · have ha1 : a.1 = k2 := by simpa using ha
      simp only [List.map_cons]
      rw [if_pos ha]
      simp only [dictGet]
      rw [if_neg (show ¬(((k2, v).1 == k) = true) by simp [beq_iff_eq, hne]),
        if_neg (show ¬((a.1 == k) = true) by simp [beq_iff_eq, ha1, hne])]
      exact ih
    · by_cases hk : a.1 == k
      · simp only [List.map_cons]
        rw [if_neg ha]
        simp only [dictGet]
        rw [if_pos hk, if_pos hk]
      · simp only [List.map_cons]
        rw [if_neg ha]
        simp only [dictGet]
        rw [if_neg hk, if_neg hk]
        exact ih

/-- Appending a binding of another key preserves a lookup. -/
theorem dictGet_append_ne (m : List (String × String)) (k k2 v : String)
    (hne : k2 ≠ k) :
    dictGet (m ++ [(k2, v)]) k = dictGet m k := by
  induction m with
  | nil => simp [dictGet, beq_iff_eq, hne]
  | cons a rest ih =>
    by_cases hk : a.1 == k
    · simp [dictGet, hk]
    · simp [dictGet, hk, ih]

/-- Dict lookup after assignment of the same key. -/
theorem dictGet_dictSet_same (m : List (String × String)) (k v : String) :
    dictGet (dictSet m k v) k = some v := by
  unfold dictSet
  split
  · rename_i h
    exact dictGet_map_update_self m k v h
  · rename_i h
    exact dictGet_append_self m k v (by simpa using h)

/-- Dict lookup after assignment of a different key. -/
theorem dictGet_dictSet_ne (m : List (String × String)) (k k2 v : String)
    (hne : k2 ≠ k) : dictGet (dictSet m k2 v) k = dictGet m k := by
  unfold dictSet
  split
  · exact dictGet_map_update_ne m k k2 v hne
  · exact dictGet_append_ne m k k2 v hne

/-- Assignment guarded by a condition on another key preserves a lookup. -/
theorem dictGet_guard_preserve (c : Bool) (m : List (String × String))
    (k k' u : String) (hne : k' ≠ k) :
    dictGet (if c then dictSet m k' u else m) k = dictGet m k := by
  cases c
  · rfl
  · simpa using dictGet_dictSet_ne m k k' u hne

/-- With no lifestyle keyword in the response, the lifestyle loop is the
identity. -/
theorem applyLifestyleFactors_no_keyword (u : String) (m : List (String × String))
    (h : containsLifestyleKeyword u = false) :
    applyLifestyleFactors u m = m := by
  simp only [containsLifestyleKeyword, lifestyleFactorFamilies, List.any_cons,
    List.any_nil, Bool.or_eq_false_iff] at h
  simp [applyLifestyleFactors, lifestyleFactorFamilies, List.any_cons, List.any_nil,
    h.1, h.2.1, h.2.2.1, h.2.2.2.1]

/-- The profile returned by `process_user_response`: confirmations are
appended and the lifestyle loop is applied; nothing else changes. -/
theorem processUserResponse_profile (db : DiseaseDatabase) (st : AgentState)
    (u : String) (p : PatientProfile) :
    (processUserResponse db st u p).2.2 =
      ⟨p.patient_id, p.age, p.gender, p.medical_history,
       p.confirmed_symptoms ++ (analyzeUserResponse st u p).1,
       applyLifestyleFactors u p.lifestyle_factors, p.conversation_history⟩ := by
  unfold processUserResponse
  dsimp only
  split <;> rfl

/-- Scoring an empty confirmed list yields no candidates. -/
theorem findPotentialDiseases_nil (db : DiseaseDatabase) :
    findPotentialDiseases db [] = [] := rfl

/-! ## C7 -/

/-- C7, counterexample: a turn that recognizes zero symptoms does return the
no-match response with the generic question set and leaves
`confirmed_symptoms` unchanged, but the `PatientProfile` is not left
completely unchanged — the lifestyle loop of `analyze_user_response` runs
unconditionally, so the utterance `工作` (a stress keyword, no symptom)
writes `lifestyle_factors["压力"]` even though no symptom was recognized. -/
theorem c7_counterexample_profile_mutated :
    (processUserResponse emptyDb initAgentState "工作" baseProfile).1 =
      AgentResponse.noMatches 0 noMatchesMessage genericSuggestedQuestions
    ∧ (processUserResponse emptyDb initAgentState "工作"
        baseProfile).2.2.confirmed_symptoms = []
    ∧ (processUserResponse emptyDb initAgentState "工作"
        baseProfile).2.2.lifestyle_factors = [("压力", "工作")]
    ∧ baseProfile.lifestyle_factors = [] := by
  refine ⟨?_, ?_, ?_, rfl⟩ <;> decide

/-- C7, amended: with an empty profile and zero recognized symptoms, the
turn returns the no-match response with the generic question set;
`process_user_query` leaves the profile completely unchanged, while
`process_user_response` leaves it unchanged provided the utterance also
contains no lifestyle keyword. -/
theorem c7_amended_no_symptom_turn :
    (∀ (db : DiseaseDatabase) (st : AgentState) (u : String) (p : PatientProfile),
        p.confirmed_symptoms = [] →
        extractAndConfirmSymptoms u p = [] →
        (processUserQuery db st u p).1 =
          AgentResponse.noMatches st.current_analysis_step noMatchesMessage
            genericSuggestedQuestions
        ∧ (processUserQuery db st u p).2.2 = p)
    ∧ (∀ (db : DiseaseDatabase) (st : AgentState) (u : String) (p : PatientProfile),
        p.confirmed_symptoms = [] →
        (analyzeUserResponse st u p).1 = [] →
        containsLifestyleKeyword u = false →
        (processUserResponse db st u p).1 =
          AgentResponse.noMatches st.current_analysis_step noMatchesMessage
            genericSuggestedQuestions
        ∧ (processUserResponse db st u p).2.2 = p) := by
  constructor
  · intro db st u p h0 hex
    obtain ⟨pid, age, g, mh, cs, lf, ch⟩ := p
    dsimp only at h0
    subst h0
    constructor
    · unfold processUserQuery
      dsimp only
      rw [hex]
      rfl
    · unfold processUserQuery
      dsimp only
      rw [hex]
      rfl
  · intro db st u p h0 ha hlk
    obtain ⟨pid, age, g, mh, cs, lf, ch⟩ := p
    dsimp only at h0
    subst h0
    have hl : applyLifestyleFactors u lf = lf := applyLifestyleFactors_no_keyword u lf hlk
    dsimp only [analyzeUserResponse] at ha
    constructor
    · unfold processUserResponse
      dsimp only [analyzeUserResponse]
      rw [ha, hl]
      rfl
    · unfold processUserResponse
      dsimp only [analyzeUserResponse]
      rw [ha, hl]
      rfl

/-- C7, witness for the amended theorem: the greeting `你好` recognizes no
symptom and contains no lifestyle keyword; both turn functions return the
no-match response and leave the base profile untouched. -/
theorem c7_amended_witness :
    (baseProfile.confirmed_symptoms = []
     ∧ extractAndConfirmSymptoms "你好" baseProfile = []
     ∧ (analyzeUserResponse initAgentState "你好" baseProfile).1 = []
     ∧ containsLifestyleKeyword "你好" = false)
    ∧ ((processUserQuery emptyDb initAgentState "你好" baseProfile).1 =
        AgentResponse.noMatches 0 noMatchesMessage genericSuggestedQuestions
      ∧ (processUserQuery emptyDb initAgentState "你好" baseProfile).2.2 = baseProfile)
    ∧ ((processUserResponse emptyDb initAgentState "你好" baseProfile).1 =
        AgentResponse.noMatches 0 noMatchesMessage genericSuggestedQuestions
      ∧ (processUserResponse emptyDb initAgentState "你好" baseProfile).2.2 = baseProfile) :=
  ⟨⟨rfl, by decide, by decide, by decide⟩,
   c7_amended_no_symptom_turn.1 emptyDb initAgentState "你好" baseProfile rfl (by decide),
   c7_amended_no_symptom_turn.2 emptyDb initAgentState "你好" baseProfile rfl (by decide)
     (by decide)⟩

/-! ## C10 -/

/-- C10: on every `process_user_response` turn — regardless of whether any
symptom was confirmed — each lifestyle family with a keyword occurring in
the utterance ends with the whole raw utterance stored under its factor key
(overwriting any previous value), and when the utterance contains no
lifestyle keyword the `lifestyle_factors` dict is left unchanged. -/
theorem c10_lifestyle_factor_update (db : DiseaseDatabase) (st : AgentState)
    (u : String) (p : PatientProfile) :
    (∀ fam ∈ lifestyleFactorFamilies, fam.2.any (fun k => occursInStr k u) = true →
       dictGet ((processUserResponse db st u p).2.2).lifestyle_factors fam.1 = some u)
    ∧ (containsLifestyleKeyword u = false →
       ((processUserResponse db st u p).2.2).lifestyle_factors = p.lifestyle_factors) := by
  have hprof := processUserResponse_profile db st u p
  constructor
  · intro fam hfam hc
    rw [hprof]
    dsimp only
    simp only [lifestyleFactorFamilies, List.mem_cons, List.not_mem_nil, or_false] at hfam
    dsimp only [applyLifestyleFactors, lifestyleFactorFamilies, List.foldl]
    rcases hfam with rfl | rfl | rfl | rfl
    · rw [if_pos hc,
        dictGet_guard_preserve _ _ _ _ _ (by decide),
        dictGet_guard_preserve _ _ _ _ _ (by decide),
        dictGet_guard_preserve _ _ _ _ _ (by decide)]
      exact dictGet_dictSet_same _ _ _
    · rw [if_pos hc,
        dictGet_guard_preserve _ _ _ _ _ (by decide),
        dictGet_guard_preserve _ _ _ _ _ (by decide)]
      exact dictGet_dictSet_same _ _ _
    · rw [if_pos hc,
        dictGet_guard_preserve _ _ _ _ _ (by decide)]
      exact dictGet_dictSet_same _ _ _
    · rw [if_pos hc]
      exact dictGet_dictSet_same _ _ _
  · intro hlk
    rw [hprof]
    dsimp only
    exact applyLifestyleFactors_no_keyword u p.lifestyle_factors hlk

/-- C10, witness: the answer `最近工作很忙` (stress keyword `工作`, no
symptom) stores the whole utterance under `压力`, and the keyword-free
`你好` leaves the lifestyle dict unchanged. -/
theorem c10_witness :
    ((("压力", ["压力", "紧张", "焦虑", "工作"]) ∈ lifestyleFactorFamilies
      ∧ ((["压力", "紧张", "焦虑", "工作"] : List String).any
          (fun k => occursInStr k "最近工作很忙")) = true)
     ∧ dictGet ((processUserResponse emptyDb initAgentState "最近工作很忙"
          baseProfile).2.2).lifestyle_factors "压力" = some "最近工作很忙")
    ∧ (containsLifestyleKeyword "你好" = false
     ∧ ((processUserResponse emptyDb initAgentState "你好"
          baseProfile).2.2).lifestyle_factors = baseProfile.lifestyle_factors) :=
  ⟨⟨⟨by decide, by decide⟩,
    (c10_lifestyle_factor_update emptyDb initAgentState "最近工作很忙" baseProfile).1
      ("压力", ["压力", "紧张", "焦虑", "工作"]) (by decide) (by decide)⟩,
   ⟨by decide,
    (c10_lifestyle_factor_update emptyDb initAgentState "你好" baseProfile).2 (by decide)⟩⟩

/-- Cleaning is idempotent (a filtered string is unchanged by filtering). -/
theorem cleanName_idem (s : String) : cleanName (cleanName s) = cleanName s := by
  unfold cleanName
  simp [List.filter_filter]

/-- A successful group scan returns one of the table's canonical names. -/
theorem scanGroups_mem (gs : List (String × List String)) (c k : String)
    (h : scanGroups c gs = some k) : k ∈ gs.map Prod.fst := by
  induction gs with
  | nil => simp [scanGroups] at h
  | cons g rest ih =>
    rw [scanGroups] at h
    split at h
    · cases h
      simp
    · simp only [List.map_cons, List.mem_cons]
      exact Or.inr (ih h)

set_option maxRecDepth 40000 in
set_option maxHeartbeats 4000000 in
/-- Self-normalization of chunk 1 (kernel evaluation of the group scan). -/
theorem keyChunk1_selfnorm :
    (keyChunk1.all
      (fun k => decide (k ∈ badCanonicalNames) || (normalizeSymptomName k == k))) = true := by
  decide

set_option maxRecDepth 40000 in
set_option maxHeartbeats 4000000 in
/-- Self-normalization of chunk 2 (kernel evaluation of the group scan). -/
theorem keyChunk2_selfnorm :
    (keyChunk2.all
      (fun k => decide (k ∈ badCanonicalNames) || (normalizeSymptomName k == k))) = true := by
  decide

set_option maxRecDepth 40000 in
set_option maxHeartbeats 4000000 in
/-- Self-normalization of chunk 3 (kernel evaluation of the group scan). -/
theorem keyChunk3_selfnorm :
    (keyChunk3.all
      (fun k => decide (k ∈ badCanonicalNames) || (normalizeSymptomName k == k))) = true := by
  decide

set_option maxRecDepth 40000 in
set_option maxHeartbeats 4000000 in
/-- Self-normalization of chunk 4 (kernel evaluation of the group scan). -/
theorem keyChunk4_selfnorm :
    (keyChunk4.all
      (fun k => decide (k ∈ badCanonicalNames) || (normalizeSymptomName k == k))) = true := by
  decide

set_option maxRecDepth 40000 in
set_option maxHeartbeats 4000000 in
/-- Self-normalization of chunk 5 (kernel evaluation of the group scan). -/
theorem keyChunk5_selfnorm :
    (keyChunk5.all
      (fun k => decide (k ∈ badCanonicalNames) || (normalizeSymptomName k == k))) = true := by
  decide

set_option maxRecDepth 40000 in
set_option maxHeartbeats 4000000 in
/-- Self-normalization of chunk 6 (kernel evaluation of the group scan). -/
theorem keyChunk6_selfnorm :
    (keyChunk6.all
      (fun k => decide (k ∈ badCanonicalNames) || (normalizeSymptomName k == k))) = true := by
  decide

set_option maxRecDepth 40000 in
set_option maxHeartbeats 4000000 in
/-- Self-normalization of chunk 7 (kernel evaluation of the group scan). -/
theorem keyChunk7_selfnorm :
    (keyChunk7.all
      (fun k => decide (k ∈ badCanonicalNames) || (normalizeSymptomName k == k))) = true := by
  decide

set_option maxRecDepth 40000 in
set_option maxHeartbeats 4000000 in
/-- Self-normalization of chunk 8 (kernel evaluation of the group scan). -/
theorem keyChunk8_selfnorm :
    (keyChunk8.all
      (fun k => decide (k ∈ badCanonicalNames) || (normalizeSymptomName k == k))) = true := by
  decide

set_option maxRecDepth 40000 in
set_option maxHeartbeats 4000000 in
/-- Self-normalization of chunk 9 (kernel evaluation of the group scan). -/
theorem keyChunk9_selfnorm :
    (keyChunk9.all
      (fun k => decide (k ∈ badCanonicalNames) || (normalizeSymptomName k == k))) = true := by
  decide

set_option maxRecDepth 40000 in
set_option maxHeartbeats 4000000 in
/-- Self-normalization of chunk 10 (kernel evaluation of the group scan). -/
theorem keyChunk10_selfnorm :
    (keyChunk10.all
      (fun k => decide (k ∈ badCanonicalNames) || (normalizeSymptomName k == k))) = true := by
  decide

set_option maxRecDepth 40000 in
set_option maxHeartbeats 4000000 in
/-- Self-normalization of chunk 11 (kernel evaluation of the group scan). -/
theorem keyChunk11_selfnorm :
    (keyChunk11.all
      (fun k => decide (k ∈ badCanonicalNames) || (normalizeSymptomName k == k))) = true := by
  decide

set_option maxRecDepth 40000 in
set_option maxHeartbeats 4000000 in
/-- Self-normalization of chunk 12 (kernel evaluation of the group scan). -/
theorem keyChunk12_selfnorm :
    (keyChunk12.all
      (fun k => decide (k ∈ badCanonicalNames) || (normalizeSymptomName k == k))) = true := by
  decide

set_option maxRecDepth 40000 in
set_option maxHeartbeats 4000000 in
/-- Self-normalization of chunk 13 (kernel evaluation of the group scan). -/
theorem keyChunk13_selfnorm :
    (keyChunk13.all
      (fun k => decide (k ∈ badCanonicalNames) || (normalizeSymptomName k == k))) = true := by
  decide

/-- The table's canonical names, chunked. -/
theorem semanticGroupKeys_chunks :
    semanticGroups.map Prod.fst = keyChunk1 ++ (keyChunk2 ++ (keyChunk3 ++ (keyChunk4 ++ (keyChunk5 ++ (keyChunk6 ++ (keyChunk7 ++ (keyChunk8 ++ (keyChunk9 ++ (keyChunk10 ++ (keyChunk11 ++ (keyChunk12 ++ (keyChunk13)))))))))))) := by
  decide

/-- Every canonical name outside `badCanonicalNames` normalizes to itself. -/
theorem semanticGroups_selfnormalize :
    ((semanticGroups.map Prod.fst).all
      (fun k => decide (k ∈ badCanonicalNames) || (normalizeSymptomName k == k))) = true := by
  rw [semanticGroupKeys_chunks]
  simp only [List.all_append, Bool.and_eq_true]
  exact ⟨keyChunk1_selfnorm, keyChunk2_selfnorm, keyChunk3_selfnorm, keyChunk4_selfnorm, keyChunk5_selfnorm, keyChunk6_selfnorm, keyChunk7_selfnorm, keyChunk8_selfnorm, keyChunk9_selfnorm, keyChunk10_selfnorm, keyChunk11_selfnorm, keyChunk12_selfnorm, keyChunk13_selfnorm⟩

/-- A canonical name outside the bad list is a fixed point of the
canonicalizer. -/
theorem normalizeSymptomName_self_of_good (k : String)
    (hk : k ∈ semanticGroups.map Prod.fst) (hb : k ∉ badCanonicalNames) :
    normalizeSymptomName k = k := by
  have hall := List.all_eq_true.mp semanticGroups_selfnormalize k hk
  rcases (Bool.or_eq_true _ _).mp hall with h | h
  · exact absurd (of_decide_eq_true h) hb
  · exact eq_of_beq h

/-- C2, amended: the canonicalizer is idempotent on every input whose
canonical result avoids the 23 table names that re-normalize to a different
(earlier) group — in particular on every input no group matches, where the
cleaned string is returned unchanged. -/
theorem c2_amended_idempotent (s : String)
    (h : normalizeSymptomName s ∉ badCanonicalNames) :
    normalizeSymptomName (normalizeSymptomName s) = normalizeSymptomName s := by
  cases hscan : scanGroups (cleanName s) semanticGroups with
  | some k =>
    have hs : normalizeSymptomName s = k := by
      unfold normalizeSymptomName
      rw [hscan]
    rw [hs] at h ⊢
    exact normalizeSymptomName_self_of_good k (scanGroups_mem _ _ _ hscan) h
  | none =>
    have hs : normalizeSymptomName s = cleanName s := by
      unfold normalizeSymptomName
      rw [hscan]
    rw [hs]
    unfold normalizeSymptomName
    rw [cleanName_idem, hscan]

/-- C2, witness for the amended theorem: `头疼` normalizes to `头痛`, which
is not a bad name, and a second normalization is the identity. -/
theorem c2_amended_witness :
    normalizeSymptomName "头疼" ∉ badCanonicalNames
    ∧ normalizeSymptomName (normalizeSymptomName "头疼") = normalizeSymptomName "头疼" :=
  ⟨by decide, c2_amended_idempotent "头疼" (by decide)⟩

/-! ## C9 -/

set_option maxRecDepth 40000 in
set_option maxHeartbeats 4000000 in
/-- The 130 generated ids, by kernel evaluation of the MD5-based generator
on every canonical name of the table. -/
theorem semanticGroupIds_computed :
    (semanticGroups.map Prod.fst).map generateSymptomId = expectedIds := by
  decide

set_option maxRecDepth 40000 in
/-- The 130 generated ids are pairwise distinct. -/
theorem expectedIds_nodup : expectedIds.Nodup := by decide

/-- C9: over the static semantic-group table, `_generate_symptom_id`
(`SYM_` + first 8 uppercase hex characters of the MD5 digest of the UTF-8
encoded name) maps distinct canonical names to distinct ids. -/
theorem c9_no_id_collision (n1 n2 : String)
    (h1 : n1 ∈ semanticGroups.map Prod.fst) (h2 : n2 ∈ semanticGroups.map Prod.fst)
    (hne : n1 ≠ n2) : generateSymptomId n1 ≠ generateSymptomId n2 := by
  have hnodup : ((semanticGroups.map Prod.fst).map generateSymptomId).Nodup := by
    rw [semanticGroupIds_computed]
    exact expectedIds_nodup
  intro he
  exact hne (List.inj_on_of_nodup_map hnodup h1 h2 he)

/-- C9, witness: the distinct canonical names `头痛` and `发热` receive
distinct ids. -/
theorem c9_witness :
    ("头痛" ∈ semanticGroups.map Prod.fst ∧ "发热" ∈ semanticGroups.map Prod.fst
      ∧ "头痛" ≠ "发热")
    ∧ generateSymptomId "头痛" ≠ generateSymptomId "发热" :=
  ⟨⟨by decide, by decide, by decide⟩,
   c9_no_id_collision "头痛" "发热" (by decide) (by decide) (by decide)⟩

/-! ## C5 -/

/-- Ids already seen never reappear after deduplication. -/
theorem dedupDiseases_count_zero (l : List DiseaseInfo) (seen : List String)
    (x : String) (hx : x ∈ seen) :
    ((dedupDiseases seen l).map (fun i => i.disease_id)).count x = 0 := by
  induction l generalizing seen with
  | nil => simp [dedupDiseases]
  | cons i is ih =>
    rw [dedupDiseases]
    split
    · exact ih seen hx
    · rename_i hmem
      have hne : i.disease_id ≠ x := fun he => hmem (he ▸ hx)
      simp only [List.map_cons, List.count_cons]
      rw [ih (i.disease_id :: seen) (List.mem_cons_of_mem _ hx)]
      simp [hne]

/-- An id occurring in the list but not yet seen appears exactly once after
first-occurrence deduplication. -/
theorem dedupDiseases_count_one (l : List DiseaseInfo) (seen : List String)
    (x : String) (hseen : x ∉ seen) (hx : x ∈ l.map (fun i => i.disease_id)) :
    ((dedupDiseases seen l).map (fun i => i.disease_id)).count x = 1 := by
  induction l generalizing seen with
  | nil => simp at hx
  | cons i is ih =>
    rw [dedupDiseases]
    split
    · rename_i hmem
      have hne : x ≠ i.disease_id := fun he => hseen (he ▸ hmem)
      rw [List.map_cons] at hx
      have hx' : x ∈ is.map (fun i => i.disease_id) := by
        rcases List.mem_cons.mp hx with h | h
        · exact absurd h hne
        · exact h
      exact ih seen hseen hx'
    · rename_i hmem
      by_cases hxi : x = i.disease_id
      · subst hxi
        have h0 := dedupDiseases_count_zero is (i.disease_id :: seen) i.disease_id
          (List.mem_cons_self _ _)
        simp [List.count_cons, h0]
      · rw [List.map_cons] at hx
        have hx' : x ∈ is.map (fun i => i.disease_id) := by
          rcases List.mem_cons.mp hx with h | h
          · exact absurd h hxi
          · exact h
        have hns : x ∉ i.disease_id :: seen := by
          intro hm
          rcases List.mem_cons.mp hm with h | h
          · exact hxi h
          · exact hseen h
        have := ih (i.disease_id :: seen) hns hx'
        simp [List.count_cons, hxi, this]

/-- C5: every (disease, symptom) pair of the canonicalized knowledge base
contributes its disease id exactly once to the deduplicated reverse-index
bucket of the symptom's id, and every reverse-index entry satisfies
`disease_count == len(diseases)`. -/
theorem c5_reverse_index_round_trip (data : List RawDisease) (d : NormDisease)
    (hd : d ∈ normalizeDiseaseData data) (s : NormSymptom) (hs : s ∈ d.symptom_list) :
    ((createReverseMapping data s.symptom_id).diseases.map
        (fun i => i.disease_id)).count d.disease_id = 1
    ∧ (∀ uid, (createReverseMapping data uid).disease_count =
        (createReverseMapping data uid).diseases.length) := by
  refine ⟨?_, fun uid => rfl⟩
  rcases List.mem_map.mp hd with ⟨rd, hrd, hde⟩
  subst hde
  dsimp only at hs
  rcases List.mem_filterMap.mp hs with ⟨rs, hrs, hup⟩
  have hmem : mkDiseaseInfo rd rs ∈ symptomToDiseasesAccum data s.symptom_id := by
    unfold symptomToDiseasesAccum
    rw [List.mem_flatten]
    refine ⟨_, List.mem_map.mpr ⟨rd, hrd, rfl⟩, ?_⟩
    rw [List.mem_filterMap]
    refine ⟨rs, hrs, ?_⟩
    rw [hup]
    simp
  have hxmem : rd.disease_id ∈
      (symptomToDiseasesAccum data s.symptom_id).map (fun i => i.disease_id) :=
    List.mem_map.mpr ⟨mkDiseaseInfo rd rs, hmem, rfl⟩
  dsimp only [createReverseMapping]
  exact dedupDiseases_count_one _ [] _ (List.not_mem_nil _) hxmem

set_option maxRecDepth 40000 in
set_option maxHeartbeats 1000000 in
/-- C5, witness: a one-disease, one-symptom knowledge base; `头痛` receives
id `SYM_4A41D991` and disease `D1` appears exactly once in its reverse-index
bucket. -/
theorem c5_witness :
    ((⟨"D1", "示例疾病丁", [⟨"头痛", true, "SYM_4A41D991", "头痛"⟩]⟩ : NormDisease) ∈
        normalizeDiseaseData c5Data
      ∧ (⟨"头痛", true, "SYM_4A41D991", "头痛"⟩ : NormSymptom) ∈
          ((⟨"D1", "示例疾病丁", [⟨"头痛", true, "SYM_4A41D991", "头痛"⟩]⟩ :
            NormDisease)).symptom_list)
    ∧ ((createReverseMapping c5Data "SYM_4A41D991").diseases.map
        (fun i => i.disease_id)).count "D1" = 1 :=
  ⟨⟨by decide, by decide⟩,
   (c5_reverse_index_round_trip c5Data
     ⟨"D1", "示例疾病丁", [⟨"头痛", true, "SYM_4A41D991", "头痛"⟩]⟩ (by decide)
     ⟨"头痛", true, "SYM_4A41D991", "头痛"⟩ (by decide)).1⟩

/-! ## C3 -/

/-- The cross-multiplication threshold test agrees with the rational order
for positive denominators. -/
theorem Frac.bge100_iff_toQ (f : Frac) (hden : 0 < f.den) :
    Frac.bge100 f = true ↔ (100 : ℚ) ≤ f.toQ := by
  unfold Frac.bge100 Frac.toQ
  rw [decide_eq_true_eq]
  rw [le_div_iff (by exact_mod_cast hden)]
  constructor <;> intro hcm <;> exact_mod_cast hcm

/-- Membership in an insertion. -/
theorem mem_insertKeep (keep : α → α → Bool) (x a : α) (l : List α) :
    a ∈ insertKeep keep x l ↔ a = x ∨ a ∈ l := by
  induction l with
  | nil => simp [insertKeep]
  | cons y ys ih =>
    rw [insertKeep]
    split
    · rw [List.mem_cons, ih, List.mem_cons]
      tauto
    · simp [List.mem_cons]

/-- The stable sort is a permutation membership-wise. -/
theorem mem_stableSortBy (keep : α → α → Bool) (l : List α) (a : α) :
    a ∈ stableSortBy keep l ↔ a ∈ l := by
  unfold stableSortBy
  suffices h : ∀ (l acc : List α),
      (a ∈ l.foldl (fun acc x => insertKeep keep x acc) acc ↔ a ∈ acc ∨ a ∈ l) by
    simpa using h l []
  intro l
  induction l with
  | nil => simp
  | cons x xs ih =>
    intro acc
    rw [List.foldl_cons, ih, mem_insertKeep, List.mem_cons]
    tauto

/-- Percentages built by the scorer have positive denominators. -/
theorem pctOf_den_pos (c t : Nat) : 0 < (pctOf c t).den := by
  unfold pctOf
  split
  · simpa using ‹0 < t›
  · simp

/-- Every candidate surfaced by `find_potential_diseases` carries a
percentage with positive denominator. -/
theorem findPotentialDiseases_den_pos (db : DiseaseDatabase)
    (confirmed : List SymptomMatch) (p : DiseaseMatchProgress)
    (hp : p ∈ findPotentialDiseases db confirmed) : 0 < p.match_percentage.den := by
  have hp' := (mem_stableSortBy _ _ _).mp hp
  rcases List.mem_map.mp hp' with ⟨e, _, he⟩
  rw [← he]
  exact pctOf_den_pos _ _

/-- The profile returned by `process_user_query` is the updated profile. -/
theorem processUserQuery_profile (db : DiseaseDatabase) (st : AgentState)
    (u : String) (p : PatientProfile) :
    (processUserQuery db st u p).2.2 = updatedQueryProfile u p := by
  unfold processUserQuery updatedQueryProfile
  dsimp only
  split <;> rfl

/-- Common tail of both turn functions: whenever some candidate reaches 100,
the filtered list is non-empty and the first perfect match is turned into
the diagnosis payload. -/
theorem perfectMatchResponse (db : DiseaseDatabase) (st : AgentState)
    (P : PatientProfile)
    (h : ∃ d ∈ findPotentialDiseases db P.confirmed_symptoms,
      (100 : ℚ) ≤ d.match_percentage.toQ) :
    ∃ dp ∈ findPotentialDiseases db P.confirmed_symptoms,
      (100 : ℚ) ≤ dp.match_percentage.toQ
      ∧ (match (findPotentialDiseases db P.confirmed_symptoms).filter
            (fun (d : DiseaseMatchProgress) => Frac.bge100 d.match_percentage) with
         | q :: _ => (generateFinalDiagnosis st q P, st, P)
         | [] =>
           ((generateVerificationQuestions st
               (findPotentialDiseases db P.confirmed_symptoms) P).1,
            (generateVerificationQuestions st
               (findPotentialDiseases db P.confirmed_symptoms) P).2,
            P)).1 =
        AgentResponse.diagnosisComplete st.current_analysis_step
          ⟨dp.disease_name, "high", dp.match_percentage, confirmedSymptomNames P,
           "基于症状分析，您患有" ++ dp.disease_name ++ "的概率很高"⟩
          staticRecommendations
          (generateLifestyleAdvice P.lifestyle_factors) := by
  cases hfil : (findPotentialDiseases db P.confirmed_symptoms).filter
      (fun d => Frac.bge100 d.match_percentage) with
  | nil =>
    exfalso
    rcases h with ⟨d, hdmem, hdq⟩
    have hden := findPotentialDiseases_den_pos db _ d hdmem
    have hbge : Frac.bge100 d.match_percentage = true :=
      (Frac.bge100_iff_toQ _ hden).mpr hdq
    have hdf : d ∈ (findPotentialDiseases db P.confirmed_symptoms).filter
        (fun d => Frac.bge100 d.match_percentage) :=
      List.mem_filter.mpr ⟨hdmem, hbge⟩
    rw [hfil] at hdf
    exact List.not_mem_nil _ hdf
  | cons q qs =>
    have hqmem := List.mem_filter.mp (hfil ▸ List.mem_cons_self q qs)
    have hden := findPotentialDiseases_den_pos db _ q hqmem.1
    refine ⟨q, hqmem.1, (Frac.bge100_iff_toQ _ hden).mp hqmem.2, ?_⟩
    rfl

/-- C3: whenever, after the turn updates the profile, some candidate reaches
a match percentage of at least 100, the turn — `process_user_query` as well
as `process_user_response` — returns the terminal diagnosis payload for such
a candidate: its disease name, confidence `high`, its match percentage, the
full confirmed-symptom name list of the profile, the fixed reasoning text,
the static recommendations and the lifestyle advice.  The
`diagnosisComplete` shape carries no question list, so no clarification
questions are produced on such a turn. -/
theorem c3_perfect_match_diagnosis :
    (∀ (db : DiseaseDatabase) (st : AgentState) (input : String)
        (profile : PatientProfile),
      (∃ d ∈ findPotentialDiseases db
          ((processUserQuery db st input profile).2.2).confirmed_symptoms,
        (100 : ℚ) ≤ d.match_percentage.toQ) →
      ∃ dp ∈ findPotentialDiseases db
          ((processUserQuery db st input profile).2.2).confirmed_symptoms,
        (100 : ℚ) ≤ dp.match_percentage.toQ
        ∧ (processUserQuery db st input profile).1 =
            AgentResponse.diagnosisComplete st.current_analysis_step
              ⟨dp.disease_name, "high", dp.match_percentage,
               confirmedSymptomNames (processUserQuery db st input profile).2.2,
               "基于症状分析，您患有" ++ dp.disease_name ++ "的概率很高"⟩
              staticRecommendations
              (generateLifestyleAdvice
                ((processUserQuery db st input profile).2.2).lifestyle_factors))
    ∧ (∀ (db : DiseaseDatabase) (st : AgentState) (response : String)
        (profile : PatientProfile),
      (∃ d ∈ findPotentialDiseases db
          ((processUserResponse db st response profile).2.2).confirmed_symptoms,
        (100 : ℚ) ≤ d.match_percentage.toQ) →
      ∃ dp ∈ findPotentialDiseases db
          ((processUserResponse db st response profile).2.2).confirmed_symptoms,
        (100 : ℚ) ≤ dp.match_percentage.toQ
        ∧ (processUserResponse db st response profile).1 =
            AgentResponse.diagnosisComplete st.current_analysis_step
              ⟨dp.disease_name, "high", dp.match_percentage,
               confirmedSymptomNames (processUserResponse db st response profile).2.2,
               "基于症状分析，您患有" ++ dp.disease_name ++ "的概率很高"⟩
              staticRecommendations
              (generateLifestyleAdvice
                ((processUserResponse db st response profile).2.2).lifestyle_factors)) := by
  constructor
  · intro db st input profile h
    rw [processUserQuery_profile] at h ⊢
    exact perfectMatchResponse db st (updatedQueryProfile input profile) h
  · intro db st response profile h
    rw [processUserResponse_profile] at h ⊢
    exact perfectMatchResponse db st
      ⟨profile.patient_id, profile.age, profile.gender, profile.medical_history,
       profile.confirmed_symptoms ++ (analyzeUserResponse st response profile).1,
       applyLifestyleFactors response profile.lifestyle_factors,
       profile.conversation_history⟩ h

/-- C3, witness: against a database with a single one-symptom disease, the
utterance `我头痛` confirms its only symptom; the candidate reaches 100 and
the theorem delivers the diagnosis payload. -/
theorem c3_witness :
    (∃ d ∈ findPotentialDiseases c3Db
        ((processUserQuery c3Db initAgentState "我头痛" baseProfile).2.2).confirmed_symptoms,
      (100 : ℚ) ≤ d.match_percentage.toQ)
    ∧ ∃ dp ∈ findPotentialDiseases c3Db
        ((processUserQuery c3Db initAgentState "我头痛" baseProfile).2.2).confirmed_symptoms,
      (100 : ℚ) ≤ dp.match_percentage.toQ
      ∧ (processUserQuery c3Db initAgentState "我头痛" baseProfile).1 =
          AgentResponse.diagnosisComplete initAgentState.current_analysis_step
            ⟨dp.disease_name, "high", dp.match_percentage,
             confirmedSymptomNames
               (processUserQuery c3Db initAgentState "我头痛" baseProfile).2.2,
             "基于症状分析，您患有" ++ dp.disease_name ++ "的概率很高"⟩
            staticRecommendations
            (generateLifestyleAdvice
              ((processUserQuery c3Db initAgentState "我头痛"
                baseProfile).2.2).lifestyle_factors) := by
  have hh : ∃ d ∈ findPotentialDiseases c3Db
      ((processUserQuery c3Db initAgentState "我头痛" baseProfile).2.2).confirmed_symptoms,
      (100 : ℚ) ≤ d.match_percentage.toQ :=
    ⟨⟨"D1", "示例疾病乙", 1, 1, ⟨100, 1⟩, [], [], []⟩, by decide,
     (Frac.bge100_iff_toQ ⟨100, 1⟩ (by decide)).mp (by decide)⟩
  exact ⟨hh, c3_perfect_match_diagnosis.1 c3Db initAgentState "我头痛" baseProfile hh⟩

/-! ## C4 -/

/-- Head decomposition of the per-info contribution. -/
theorem infoContrib_cons (sname d0 n0 did : String) (rest : List (String × String)) :
    infoContrib sname ((d0, n0) :: rest) did =
      (if d0 = did then [sname] else []) ++ infoContrib sname rest did := by
  unfold infoContrib
  rw [List.filterMap_cons]
  split
  · rename_i hmm
    rw [if_neg (by simpa using hmm)]
    rfl
  · rename_i b hmm
    rcases em (d0 = did) with h | h
    · rw [if_pos h] at hmm ⊢
      cases hmm
      rfl
    · rw [if_neg h] at hmm
      cases hmm

/-- Head decomposition of the per-disease confirmed bucket. -/
theorem confirmedBucketFor_cons (db : DiseaseDatabase) (did : String)
    (m : SymptomMatch) (L : List SymptomMatch) :
    confirmedBucketFor db did (m :: L) =
      (if m.is_confirmed then
         infoContrib m.symptom_name (symptomToDiseases db m.symptom_name) did
       else []) ++ confirmedBucketFor db did L := by
  unfold confirmedBucketFor infoContrib
  rw [List.map_cons, List.flatten_cons]

/-- Invariant of the inner loop over the mapping pairs: each accumulator
entry's bucket is extended by exactly its per-info contribution, and absent
ids have empty extended buckets. -/
theorem addForInfos_invariant (sname : String) (infos : List (String × String)) :
    ∀ (acc : List ScoreEntry) (B : String → List String),
    (∀ e ∈ acc, e.bucket = B e.disease_id) →
    (∀ did, (∀ e ∈ acc, e.disease_id ≠ did) → B did = []) →
    (∀ e ∈ addForInfos acc sname infos,
        e.bucket = B e.disease_id ++ infoContrib sname infos e.disease_id)
    ∧ (∀ did, (∀ e ∈ addForInfos acc sname infos, e.disease_id ≠ did) →
        B did ++ infoContrib sname infos did = []) := by
  induction infos with
  | nil =>
    intro acc B H1 H2
    constructor
    · intro e he
      rw [addForInfos] at he
      simp [infoContrib, H1 e he]
    · intro did hdid
      rw [addForInfos] at hdid
      simp [infoContrib, H2 did hdid]
  | cons info rest ih =>
    obtain ⟨did0, dname0⟩ := info
    intro acc B H1 H2
    have hH1' : ∀ e ∈ bumpScore acc did0 dname0 sname,
        e.bucket = B e.disease_id ++ (if did0 = e.disease_id then [sname] else []) := by
      intro e he
      unfold bumpScore at he
      split at he
      · rcases List.mem_map.mp he with ⟨e0, he0, hfe⟩
        by_cases hid : e0.disease_id == did0
        · have hid' : e0.disease_id = did0 := by simpa using hid
          rw [if_pos hid] at hfe
          subst hfe
          dsimp only
          rw [H1 e0 he0, hid']
          simp
        · rw [if_neg hid] at hfe
          subst hfe
          have hne : did0 ≠ e0.disease_id := fun h => hid (by simp [h])
          simp [hne, H1 e0 he0]
      · rename_i hany
        rcases List.mem_append.mp he with h | h
        · have hne : e.disease_id ≠ did0 := by
            intro hEq
            exact hany (List.any_eq_true.mpr ⟨e, h, by simp [hEq]⟩)
          have hne' : did0 ≠ e.disease_id := fun hh => hne hh.symm
          simp [hne', H1 e h]
        · have he' : e = ⟨did0, dname0, [sname]⟩ := by simpa using h
          subst he'
          have hB0 : B did0 = [] :=
            H2 did0 (fun e' he' hEq =>
              hany (List.any_eq_true.mpr ⟨e', he', by simp [hEq]⟩))
          simp [hB0]
    have hH2' : ∀ did, (∀ e ∈ bumpScore acc did0 dname0 sname, e.disease_id ≠ did) →
        B did ++ (if did0 = did then [sname] else []) = [] := by
      intro did hdid
      unfold bumpScore at hdid
      split at hdid
      · rename_i hany
        have hAcc : ∀ e ∈ acc, e.disease_id ≠ did := by
          intro e he
          have hmem := List.mem_map_of_mem
            (fun e => if e.disease_id == did0 then
              (⟨e.disease_id, e.disease_name, e.bucket ++ [sname]⟩ : ScoreEntry) else e) he
          have hthis := hdid _ hmem
          dsimp only at hthis
          by_cases hid : e.disease_id == did0
          · rw [if_pos hid] at hthis
            exact hthis
          · rw [if_neg hid] at hthis
            exact hthis
        rcases List.any_eq_true.mp hany with ⟨e0, he0, hid0⟩
        have hid0' : e0.disease_id = did0 := by simpa using hid0
        have hne : did0 ≠ did := hid0' ▸ hAcc e0 he0
        simp [hne, H2 did hAcc]
      · have hAcc : ∀ e ∈ acc, e.disease_id ≠ did := fun e he =>
          hdid e (List.mem_append_left _ he)
        have hnew : did0 ≠ did :=
          hdid ⟨did0, dname0, [sname]⟩ (List.mem_append_right _ (by simp))
        simp [hnew, H2 did hAcc]
    have hrec := ih (bumpScore acc did0 dname0 sname)
      (fun did => B did ++ (if did0 = did then [sname] else [])) hH1' hH2'
    constructor
    · intro e he
      rw [addForInfos] at he
      rw [infoContrib_cons]
      have := hrec.1 e he
      rw [this, List.append_assoc]
    · intro did hdid
      rw [addForInfos] at hdid
      rw [infoContrib_cons, ← List.append_assoc]
      exact hrec.2 did hdid

/-- Invariant of the `disease_scores` accumulation: every final entry's
bucket equals its per-disease confirmed bucket, on top of what the initial
accumulator already carried. -/
theorem accumScores_invariant (db : DiseaseDatabase) :
    ∀ (L : List SymptomMatch) (acc : List ScoreEntry) (B : String → List String),
    (∀ e ∈ acc, e.bucket = B e.disease_id) →
    (∀ did, (∀ e ∈ acc, e.disease_id ≠ did) → B did = []) →
    (∀ e ∈ L.foldl (fun acc m =>
        if m.is_confirmed then
          addForInfos acc m.symptom_name (symptomToDiseases db m.symptom_name)
        else acc) acc,
      e.bucket = B e.disease_id ++ confirmedBucketFor db e.disease_id L)
    ∧ (∀ did, (∀ e ∈ L.foldl (fun acc m =>
        if m.is_confirmed then
          addForInfos acc m.symptom_name (symptomToDiseases db m.symptom_name)
        else acc) acc, e.disease_id ≠ did) →
        B did ++ confirmedBucketFor db did L = []) := by
  intro L
  induction L with
  | nil =>
    intro acc B H1 H2
    constructor
    · intro e he
      simp only [List.foldl_nil] at he
      simp [confirmedBucketFor, H1 e he]
    · intro did hdid
      simp only [List.foldl_nil] at hdid
      simp [confirmedBucketFor, H2 did hdid]
  | cons m L' ih =>
    intro acc B H1 H2
    by_cases hc : m.is_confirmed = true
    · have hA := addForInfos_invariant m.symptom_name (symptomToDiseases db m.symptom_name)
        acc B H1 H2
      have hrec := ih (addForInfos acc m.symptom_name (symptomToDiseases db m.symptom_name))
        (fun did => B did ++ infoContrib m.symptom_name
          (symptomToDiseases db m.symptom_name) did) hA.1 hA.2
      constructor
      · intro e he
        rw [List.foldl_cons, if_pos hc] at he
        rw [confirmedBucketFor_cons, if_pos hc, ← List.append_assoc]
        exact hrec.1 e he
      · intro did hdid
        rw [List.foldl_cons, if_pos hc] at hdid
        rw [confirmedBucketFor_cons, if_pos hc, ← List.append_assoc]
        exact hrec.2 did hdid
    · have hrec := ih acc B H1 H2
      constructor
      · intro e he
        rw [List.foldl_cons, if_neg hc] at he
        rw [confirmedBucketFor_cons, if_neg hc, List.nil_append]
        exact hrec.1 e he
      · intro did hdid
        rw [List.foldl_cons, if_neg hc] at hdid
        rw [confirmedBucketFor_cons, if_neg hc, List.nil_append]
        exact hrec.2 did hdid

/-- Every accumulator entry's bucket is the per-disease confirmed bucket. -/
theorem accumScores_bucket (db : DiseaseDatabase) (confirmed : List SymptomMatch) :
    ∀ e ∈ accumScores db confirmed,
      e.bucket = confirmedBucketFor db e.disease_id confirmed := by
  intro e he
  have h := (accumScores_invariant db confirmed [] (fun _ => [])
    (by intro e' he'; cases he') (fun _ _ => rfl)).1
  have := h e (by rw [accumScores] at he; exact he)
  simpa using this

/-- Every progress record built by `find_potential_diseases` carries the
percentage `matchPercentageFor` of its disease id. -/
theorem findPotentialDiseases_pct (db : DiseaseDatabase)
    (confirmed : List SymptomMatch) (p : DiseaseMatchProgress)
    (hp : p ∈ findPotentialDiseases db confirmed) :
    p.match_percentage = matchPercentageFor db p.disease_id confirmed := by
  have hp' := (mem_stableSortBy _ _ _).mp hp
  rcases List.mem_map.mp hp' with ⟨e, hemem, he⟩
  rw [← he]
  have hb := accumScores_bucket db confirmed e hemem
  unfold mkProgress matchPercentageFor
  dsimp only
  rw [hb]

/-- Appending one confirmed match decomposes the bucket. -/
theorem confirmedBucketFor_append (db : DiseaseDatabase) (did : String)
    (S : List SymptomMatch) (x : SymptomMatch) :
    confirmedBucketFor db did (S ++ [x]) =
      confirmedBucketFor db did S ++ confirmedBucketFor db did [x] := by
  unfold confirmedBucketFor
  rw [List.map_append, List.flatten_append]

/-- The percentage is monotone in the confirmed count. -/
theorem pctOf_toQ_mono (c1 c2 t : Nat) (h : c1 ≤ c2) :
    (pctOf c1 t).toQ ≤ (pctOf c2 t).toQ := by
  unfold pctOf
  split
  · rename_i ht
    unfold Frac.toQ
    dsimp only
    rw [div_le_div_right (show (0 : ℚ) < t by exact_mod_cast ht)]
    exact_mod_cast Nat.mul_le_mul_right 100 h
  · simp

/-- With distinct disease ids, the first record found for an id is the only
record with that id. -/
theorem find_record_of_nodup (l : List DBDisease)
    (hids : (l.map (fun d => d.disease_id)).Nodup) (d : DBDisease) (hd : d ∈ l) :
    l.find? (fun d2 => d2.disease_id == d.disease_id) = some d := by
  induction l with
  | nil => cases hd
  | cons a rest ih =>
    rcases List.mem_cons.mp hd with h | h
    · subst h
      simp [List.find?]
    · rw [List.map_cons, List.nodup_cons] at hids
      have hne : a.disease_id ≠ d.disease_id := by
        intro hEq
        exact hids.1 (hEq ▸ List.mem_map_of_mem (fun d => d.disease_id) h)
      rw [List.find?]
      rw [show (a.disease_id == d.disease_id) = false by simpa using hne]
      exact ih hids.2 h

/-- With distinct disease ids, a symptom name absent from
`get_disease_symptoms did` contributes nothing to `did`'s bucket. -/
theorem infoContrib_eq_nil_of_not_listed (db : DiseaseDatabase)
    (hids : (db.disease_list.map (fun d => d.disease_id)).Nodup)
    (name did : String) (hnot : name ∉ getDiseaseSymptoms db did) :
    infoContrib name (symptomToDiseases db name) did = [] := by
  unfold infoContrib
  rw [List.filterMap_eq_nil]
  intro info hinfo
  rw [if_neg ?_]
  intro hEq
  unfold symptomToDiseases at hinfo
  split at hinfo
  · cases hinfo
  · rw [List.mem_flatten] at hinfo
    rcases hinfo with ⟨ld, hld, hmem⟩
    rcases List.mem_map.mp hld with ⟨d, hd, hde⟩
    subst hde
    rcases List.mem_filterMap.mp hmem with ⟨s, hsmem, hse⟩
    rcases em (s.symptom_name = name) with hname | hname
    · rw [if_pos hname] at hse
      cases hse
      apply hnot
      unfold getDiseaseSymptoms
      rw [show db.disease_list.find? (fun d2 => d2.disease_id == did) = some d by
        have hEq2 : d.disease_id = did := hEq
        rw [← hEq2]
        exact find_record_of_nodup db.disease_list hids d hd]
      exact hname ▸ List.mem_map_of_mem (fun s => s.symptom_name) hsmem
    · rw [if_neg hname] at hse
      cases hse

/-- C4: (i) the connection — every candidate's `match_percentage` is the
per-disease score `matchPercentageFor` of its id; (ii) adding a confirmed
symptom the disease lists never decreases the disease's percentage; (iii)
adding one it does not list leaves the percentage unchanged (given the
knowledge base lists each disease id once). -/
theorem c4_monotone_scoring (db : DiseaseDatabase)
    (hids : (db.disease_list.map (fun d => d.disease_id)).Nodup)
    (S : List SymptomMatch) (x : SymptomMatch)
    (hconf : x.is_confirmed = true)
    (_hnew : x.symptom_name ∉ S.map (fun m => m.symptom_name))
    (did : String) :
    (∀ (confirmed : List SymptomMatch), ∀ p ∈ findPotentialDiseases db confirmed,
        p.match_percentage = matchPercentageFor db p.disease_id confirmed)
    ∧ (x.symptom_name ∈ getDiseaseSymptoms db did →
        (matchPercentageFor db did S).toQ ≤ (matchPercentageFor db did (S ++ [x])).toQ)
    ∧ (x.symptom_name ∉ getDiseaseSymptoms db did →
        matchPercentageFor db did (S ++ [x]) = matchPercentageFor db did S) := by
  refine ⟨fun confirmed p hp => findPotentialDiseases_pct db confirmed p hp, ?_, ?_⟩
  · intro _hmem
    unfold matchPercentageFor
    rw [confirmedBucketFor_append, List.length_append]
    exact pctOf_toQ_mono _ _ _ (Nat.le_add_right _ _)
  · intro hnot
    unfold matchPercentageFor
    rw [confirmedBucketFor_append, List.length_append]
    have hk : (confirmedBucketFor db did [x]).length = 0 := by
      rw [confirmedBucketFor_cons, if_pos hconf,
        infoContrib_eq_nil_of_not_listed db hids x.symptom_name did hnot]
      simp [confirmedBucketFor]
    rw [hk, Nat.add_zero]

/-- C4, witness: one disease `D1` listing `头痛` and `失眠`; adding the
confirmed `头痛` to the empty confirmed set keeps the percentage monotone. -/
theorem c4_witness :
    ((c4Db.disease_list.map (fun d => d.disease_id)).Nodup
      ∧ c4X.is_confirmed = true
      ∧ c4X.symptom_name ∉ ([] : List SymptomMatch).map (fun m => m.symptom_name))
    ∧ ((∀ (confirmed : List SymptomMatch), ∀ p ∈ findPotentialDiseases c4Db confirmed,
          p.match_percentage = matchPercentageFor c4Db p.disease_id confirmed)
      ∧ (c4X.symptom_name ∈ getDiseaseSymptoms c4Db "D1" →
          (matchPercentageFor c4Db "D1" []).toQ ≤
            (matchPercentageFor c4Db "D1" ([] ++ [c4X])).toQ)
      ∧ (c4X.symptom_name ∉ getDiseaseSymptoms c4Db "D1" →
          matchPercentageFor c4Db "D1" ([] ++ [c4X]) = matchPercentageFor c4Db "D1" [])) :=
  ⟨⟨by decide, by decide, by decide⟩,
   c4_monotone_scoring c4Db (by decide) [] c4X (by decide) (by decide) "D1"⟩
